import Mathlib

/-! Verification development for the passive-effect resolution engine of the
osrs_simulator repository (src/combat/effects.py, src/combat/effect_engine.py,
src/combat/effect_definitions.py).

Modelling conventions: Python floats are modelled as exact rationals (`ℚ`);
machine rounding is not modelled.  Python `Optional[T]` is `Option T`, and the
places where the source relies on Python *truthiness* of an optional string or
list (where `None`, `""` and `[]` are all falsy) are modelled explicitly.
Python dicts preserve key insertion order; iteration over a dict built by
grouping is rendered as iteration over the keys in order of first appearance,
with each key's bucket being the in-order sublist of matching elements. -/

namespace OsrsSim

/-- The apostrophe character, written via its code point. -/
def apos : Char := Char.ofNat 39

/-- Python `str.lower()` (the source data is plain ASCII). -/
def pyLower (s : String) : String := String.mk (s.data.map Char.toLower)

/-- Python `s.replace("_", " ")`. -/
def replUnderscore (s : String) : String :=
  String.mk (s.data.map fun c => if c = '_' then ' ' else c)

/-- Python `s.replace(" ", "_")`. -/
def replSpace (s : String) : String :=
  String.mk (s.data.map fun c => if c = ' ' then '_' else c)

/-- Python `s.replace("'", "")`. -/
def stripApos (s : String) : String :=
  String.mk (s.data.filter fun c => c != apos)

/-- Does the second character list start with the first one? -/
def leadMatch : List Char → List Char → Bool
  | [], _ => true
  | _ :: _, [] => false
  | a :: as, b :: bs => a == b && leadMatch as bs

/-- Contiguous-sublist test on character lists (helper for `pyStrIn`). -/
def charsIn (needle : List Char) : List Char → Bool
  | [] => needle.isEmpty
  | c :: rest => leadMatch needle (c :: rest) || charsIn needle rest

/-- Python's substring test `needle in haystack` for strings. -/
def pyStrIn (needle haystack : String) : Bool := charsIn needle.data haystack.data

/-- `CombatStyle` from src/combat/equipment.py. -/
inductive CombatStyle where
  | MELEE
  | RANGED
  | MAGIC
deriving DecidableEq, Repr

/-- `SourceType` from src/combat/effects.py. -/
inductive SourceType where
  | WEAPON
  | ARMOR
  | SET
  | AMULET
  | AMMO
  | RING
  | CAPE
deriving DecidableEq, Repr

/-- `EffectCondition` from src/combat/effects.py (dataclass field defaults
reproduced). -/
structure EffectCondition where
  vs_attribute : Option String := none
  on_slayer_task : Bool := false
  in_wilderness : Bool := false
  player_hp_below : Option ℚ := none
  target_size_min : Option ℤ := none
  using_attack_type : Option String := none
  using_specific_weapon : Option (List String) := none
deriving DecidableEq

/-- The normalisation applied to both sides of the weapon-pattern check in
`EffectCondition.is_met`: `x.lower().replace("_", " ").replace("'", "")`. -/
def condNorm (s : String) : String := stripApos (replUnderscore (pyLower s))

/-- `EffectCondition.is_met` from src/combat/effects.py.  The source's chain of
early `return False` statements is rendered as nested conditionals, in source
order: vs_attribute, slayer task, wilderness, player HP, target size, attack
type, weapon-name patterns.  `target_attributes = target_attributes or []`
replaces both `None` and `[]` by `[]`, which `Option.getD` reproduces. -/
def EffectCondition.is_met (c : EffectCondition)
    (target_attributes : Option (List String)) (on_slayer_task : Bool)
    (in_wilderness : Bool) (player_hp_percent : ℚ) (target_size : ℤ)
    (attack_type : Option String) (weapon_name : Option String) : Bool :=
  let tattrs := target_attributes.getD []
  if (match c.vs_attribute with
      | some attr => !(tattrs.contains attr)
      | none => false) then false
  else if c.on_slayer_task && !on_slayer_task then false
  else if c.in_wilderness && !in_wilderness then false
  else if (match c.player_hp_below with
      | some threshold => decide (threshold ≤ player_hp_percent)
      | none => false) then false
  else if (match c.target_size_min with
      | some m => decide (target_size < m)
      | none => false) then false
  else if (match c.using_attack_type, attack_type with
      | some _, none => true
      | some want, some given => !(pyLower given == pyLower want)
      | none, _ => false) then false
  else if (match c.using_specific_weapon, weapon_name with
      | some patterns, some wname =>
          !(patterns.any fun pattern => pyStrIn (condNorm pattern) (condNorm wname))
      | _, _ => false) then false
  else true

/-- `EffectModifier` from src/combat/effects.py (dataclass defaults
reproduced). -/
structure EffectModifier where
  accuracy_mult : ℚ := 1
  damage_mult : ℚ := 1
  double_accuracy_roll : Bool := false
  min_hit_percent : Option ℚ := none
  max_hit_percent : Option ℚ := none
  extra_hits : Option (List ℚ) := none
  scales_with_target_magic : Bool := false
  scales_with_missing_hp : Bool := false
  ignores_defence : Bool := false
  ignores_prayer : Bool := false
deriving DecidableEq

/-- Python `a or b` on `Optional[float]` values: `None` and `0.0` are falsy, so
`a or b` yields `b` exactly when `a` is `None` or `0.0`. -/
def pyOrQ (a b : Option ℚ) : Option ℚ :=
  match a with
  | some x => if x = 0 then b else some x
  | none => b

/-- Python `a or b` on `Optional[List[float]]` values: `None` and `[]` are
falsy. -/
def pyOrList (a b : Option (List ℚ)) : Option (List ℚ) :=
  match a with
  | some l => if l = [] then b else some l
  | none => b

/-- `EffectModifier.combine` from src/combat/effects.py: multiplies the two
multiplier fields, `or`s every other field (Python `or` on the optional fields,
boolean `or` on the flags). -/
def EffectModifier.combine (self other : EffectModifier) : EffectModifier :=
  { accuracy_mult := self.accuracy_mult * other.accuracy_mult
    damage_mult := self.damage_mult * other.damage_mult
    double_accuracy_roll := self.double_accuracy_roll || other.double_accuracy_roll
    min_hit_percent := pyOrQ self.min_hit_percent other.min_hit_percent
    max_hit_percent := pyOrQ self.max_hit_percent other.max_hit_percent
    extra_hits := pyOrList self.extra_hits other.extra_hits
    scales_with_target_magic := self.scales_with_target_magic || other.scales_with_target_magic
    scales_with_missing_hp := self.scales_with_missing_hp || other.scales_with_missing_hp
    ignores_defence := self.ignores_defence || other.ignores_defence
    ignores_prayer := self.ignores_prayer || other.ignores_prayer }

/-- `PassiveEffect` from src/combat/effects.py (dataclass defaults
reproduced). -/
structure PassiveEffect where
  id : String
  name : String
  source_type : SourceType
  source_items : List String
  combat_styles : List CombatStyle
  condition : EffectCondition := {}
  modifier : EffectModifier := {}
  proc_chance : ℚ := 1
  stacking_group : Option String := none
  stacking_priority : ℤ := 0
  additive_group : Option String := none
  description : String := ""
deriving DecidableEq

/-- `PassiveEffect.applies_to_style`: `style in self.combat_styles`. -/
def PassiveEffect.applies_to_style (e : PassiveEffect) (style : CombatStyle) : Bool :=
  e.combat_styles.contains style

/-- `PassiveEffect.is_from_item`: bidirectional case-insensitive substring
match of the item name against any source token. -/
def PassiveEffect.is_from_item (e : PassiveEffect) (item_name : String) : Bool :=
  let item_lower := pyLower item_name
  e.source_items.any fun source =>
    pyStrIn (pyLower source) item_lower || pyStrIn item_lower (pyLower source)

/-- `SetBonus` from src/combat/effects.py. -/
structure SetBonus where
  id : String
  name : String
  required_items : List String
  min_pieces : ℕ
  effect : PassiveEffect
deriving DecidableEq

/-- `SetBonus.get_piece_count`: the number of required tokens fuzzy-matching
some equipped item (`sum(1 for req in ... if any(...))`). -/
def SetBonus.get_piece_count (sb : SetBonus) (equipped_items : List String) : ℕ :=
  let equipped_lower := equipped_items.map pyLower
  (sb.required_items.filter fun req =>
    equipped_lower.any fun eq => pyStrIn (pyLower req) eq || pyStrIn eq (pyLower req)).length

/-- `SetBonus.is_active`: the source repeats the body of `get_piece_count`
verbatim and compares the count with `min_pieces`. -/
def SetBonus.is_active (sb : SetBonus) (equipped_items : List String) : Bool :=
  decide (sb.min_pieces ≤ sb.get_piece_count equipped_items)

/-- `ActiveEffect` from src/combat/effects.py. -/
structure ActiveEffect where
  effect : PassiveEffect
  source : String
  effective_proc_chance : ℚ := 1
deriving DecidableEq

/-- The `modifier` property of `ActiveEffect`. -/
def ActiveEffect.modifier (a : ActiveEffect) : EffectModifier := a.effect.modifier

/-- The `stacking_group` property of `ActiveEffect`. -/
def ActiveEffect.stacking_group (a : ActiveEffect) : Option String :=
  a.effect.stacking_group

/-- The `stacking_priority` property of `ActiveEffect`. -/
def ActiveEffect.stacking_priority (a : ActiveEffect) : ℤ :=
  a.effect.stacking_priority

/-- `ResolvedModifiers` from src/combat/effects.py (dataclass defaults
reproduced; `{}` is the identity value of the no-context baseline). -/
structure ResolvedModifiers where
  accuracy_mult : ℚ := 1
  damage_mult : ℚ := 1
  double_accuracy_roll : Bool := false
  min_hit_percent : Option ℚ := none
  max_hit_percent : Option ℚ := none
  extra_hits : Option (List ℚ) := none
  scales_with_target_magic : Bool := false
  scales_with_missing_hp : Bool := false
  ignores_defence : Bool := false
  ignores_prayer : Bool := false
  active_effects : List ActiveEffect := []
  proc_effects : List ActiveEffect := []
deriving DecidableEq

/-- The fields of `MonsterStats` (src/combat/entities.py) that the effect
engine reads; the remaining combat-stat fields (levels, bonuses, names) are
never consulted by the code under verification and are omitted. -/
structure MonsterStats where
  is_undead : Bool := false
  is_demon : Bool := false
  is_dragon : Bool := false
  is_kalphite : Bool := false
  is_leafy : Bool := false
  tile_size : ℤ := 1
deriving DecidableEq

/-- `CombatContext` from src/combat/effect_engine.py. -/
structure CombatContext where
  combat_style : CombatStyle
  attack_type : String
  weapon_name : String
  equipped_items : List String
  target : Option MonsterStats := none
  on_slayer_task : Bool := false
  in_wilderness : Bool := false
  player_hp_percent : ℚ := 1
  player_max_hp : ℤ := 99
deriving DecidableEq

/-- `get_target_attributes` from src/combat/effect_engine.py: the attribute
names appended in source order. -/
def get_target_attributes (target : Option MonsterStats) : List String :=
  match target with
  | none => []
  | some t =>
      (if t.is_undead then ["undead"] else []) ++
      (if t.is_demon then ["demon"] else []) ++
      (if t.is_dragon then ["dragon"] else []) ++
      (if t.is_kalphite then ["kalphite"] else []) ++
      (if t.is_leafy then ["leafy"] else [])

/-! The effect catalog of src/combat/effect_definitions.py.  Python dicts are
rendered as association lists in key-insertion order.  The module defines the
enchanted-bolt constants twice (once around line 422 and again around line 594,
rebinding the same variable names); only the later definitions are observable
when `ALL_EFFECTS` is built, so only those are reproduced here. -/

/-- `STACKING_GROUPS` from src/combat/effect_definitions.py. -/
def STACKING_GROUPS : List (String × List String) :=
  [("slayer_undead", ["salve_ei", "salve_e", "salve", "slayer_helm_i", "slayer_helm"]),
   ("void_set", ["elite_void_ranged", "elite_void_mage", "void_ranged", "void_melee", "void_mage"])]

/-- `VOID_MELEE` effect definition. -/
def VOID_MELEE : PassiveEffect :=
  { id := "void_melee"
    name := "Void Knight Melee"
    source_type := SourceType.SET
    source_items := ["void_melee_helm", "void_knight_top", "void_knight_robe", "void_knight_gloves"]
    combat_styles := [CombatStyle.MELEE]
    modifier := { accuracy_mult := 1.10, damage_mult := 1.10 }
    stacking_group := some "void_set"
    stacking_priority := 2
    description := "+10% accuracy and damage for melee" }

/-- `VOID_RANGED` effect definition. -/
def VOID_RANGED : PassiveEffect :=
  { id := "void_ranged"
    name := "Void Knight Ranged"
    source_type := SourceType.SET
    source_items := ["void_ranger_helm", "void_knight_top", "void_knight_robe", "void_knight_gloves"]
    combat_styles := [CombatStyle.RANGED]
    modifier := { accuracy_mult := 1.10, damage_mult := 1.10 }
    stacking_group := some "void_set"
    stacking_priority := 3
    description := "+10% accuracy and damage for ranged" }

/-- `VOID_MAGIC` effect definition. -/
def VOID_MAGIC : PassiveEffect :=
  { id := "void_magic"
    name := "Void Knight Magic"
    source_type := SourceType.SET
    source_items := ["void_mage_helm", "void_knight_top", "void_knight_robe", "void_knight_gloves"]
    combat_styles := [CombatStyle.MAGIC]
    modifier := { accuracy_mult := 1.45, damage_mult := 1.0 }
    stacking_group := some "void_set"
    stacking_priority := 1
    description := "+45% magic accuracy" }

/-- `ELITE_VOID_RANGED` effect definition. -/
def ELITE_VOID_RANGED : PassiveEffect :=
  { id := "elite_void_ranged"
    name := "Elite Void Knight Ranged"
    source_type := SourceType.SET
    source_items := ["void_ranger_helm", "elite_void_top", "elite_void_robe", "void_knight_gloves"]
    combat_styles := [CombatStyle.RANGED]
    modifier := { accuracy_mult := 1.10, damage_mult := 1.125 }
    stacking_group := some "void_set"
    stacking_priority := 5
    description := "+10% accuracy, +12.5% damage for ranged" }

/-- `ELITE_VOID_MAGIC` effect definition. -/
def ELITE_VOID_MAGIC : PassiveEffect :=
  { id := "elite_void_magic"
    name := "Elite Void Knight Magic"
    source_type := SourceType.SET
    source_items := ["void_mage_helm", "elite_void_top", "elite_void_robe", "void_knight_gloves"]
    combat_styles := [CombatStyle.MAGIC]
    modifier := { accuracy_mult := 1.45, damage_mult := 1.025 }
    stacking_group := some "void_set"
    stacking_priority := 4
    description := "+45% magic accuracy, +2.5% magic damage" }

/-- `SLAYER_HELM` effect definition. -/
def SLAYER_HELM : PassiveEffect :=
  { id := "slayer_helm"
    name := "Slayer Helmet"
    source_type := SourceType.ARMOR
    source_items := ["slayer_helmet", "black_mask"]
    combat_styles := [CombatStyle.MELEE]
    condition := { on_slayer_task := true }
    modifier := { accuracy_mult := 7/6, damage_mult := 7/6 }
    stacking_group := some "slayer_undead"
    stacking_priority := 1
    description := "7/6x (~16.67%) accuracy and damage on slayer task (melee only)" }

/-- `SLAYER_HELM_IMBUED` effect definition. -/
def SLAYER_HELM_IMBUED : PassiveEffect :=
  { id := "slayer_helm_i"
    name := "Slayer Helmet (i)"
    source_type := SourceType.ARMOR
    source_items := ["slayer_helmet_i", "black_mask_i"]
    combat_styles := [CombatStyle.MELEE, CombatStyle.RANGED, CombatStyle.MAGIC]
    condition := { on_slayer_task := true }
    modifier := { accuracy_mult := 7/6, damage_mult := 7/6 }
    stacking_group := some "slayer_undead"
    stacking_priority := 2
    description := "7/6x (~16.67%) accuracy and damage on slayer task (all styles)" }

/-- `SALVE_AMULET` effect definition. -/
def SALVE_AMULET : PassiveEffect :=
  { id := "salve"
    name := "Salve Amulet"
    source_type := SourceType.AMULET
    source_items := ["salve_amulet"]
    combat_styles := [CombatStyle.MELEE]
    condition := { vs_attribute := some "undead" }
    modifier := { accuracy_mult := 7/6, damage_mult := 7/6 }
    stacking_group := some "slayer_undead"
    stacking_priority := 3
    description := "7/6x (~16.67%) accuracy and damage vs undead (melee only)" }

/-- `SALVE_AMULET_E` effect definition. -/
def SALVE_AMULET_E : PassiveEffect :=
  { id := "salve_e"
    name := "Salve Amulet (e)"
    source_type := SourceType.AMULET
    source_items := ["salve_amulet_e"]
    combat_styles := [CombatStyle.MELEE]
    condition := { vs_attribute := some "undead" }
    modifier := { accuracy_mult := 1.20, damage_mult := 1.20 }
    stacking_group := some "slayer_undead"
    stacking_priority := 4
    description := "+20% accuracy and damage vs undead (melee only)" }

/-- `SALVE_AMULET_EI` effect definition. -/
def SALVE_AMULET_EI : PassiveEffect :=
  { id := "salve_ei"
    name := "Salve Amulet (ei)"
    source_type := SourceType.AMULET
    source_items := ["salve_amulet_ei"]
    combat_styles := [CombatStyle.MELEE, CombatStyle.RANGED, CombatStyle.MAGIC]
    condition := { vs_attribute := some "undead" }
    modifier := { accuracy_mult := 1.20, damage_mult := 1.20 }
    stacking_group := some "slayer_undead"
    stacking_priority := 5
    description := "+20% accuracy and damage vs undead (all styles)" }

/-- `DRAGON_HUNTER_LANCE` effect definition. -/
def DRAGON_HUNTER_LANCE : PassiveEffect :=
  { id := "dh_lance"
    name := "Dragon Hunter Lance"
    source_type := SourceType.WEAPON
    source_items := ["dragon_hunter_lance"]
    combat_styles := [CombatStyle.MELEE]
    condition := { vs_attribute := some "dragon" }
    modifier := { accuracy_mult := 1.20, damage_mult := 1.20 }
    description := "+20% accuracy and damage vs dragons" }

/-- `DRAGON_HUNTER_CROSSBOW` effect definition. -/
def DRAGON_HUNTER_CROSSBOW : PassiveEffect :=
  { id := "dhcb"
    name := "Dragon Hunter Crossbow"
    source_type := SourceType.WEAPON
    source_items := ["dragon_hunter_crossbow"]
    combat_styles := [CombatStyle.RANGED]
    condition := { vs_attribute := some "dragon" }
    modifier := { accuracy_mult := 1.30, damage_mult := 1.25 }
    description := "+30% accuracy, +25% damage vs dragons" }

/-- `INQUISITOR_SET` effect definition. -/
def INQUISITOR_SET : PassiveEffect :=
  { id := "inquisitor"
    name := "Inquisitor's Armour"
    source_type := SourceType.SET
    source_items := ["inquisitor_helm", "inquisitor_hauberk", "inquisitor_plateskirt"]
    combat_styles := [CombatStyle.MELEE]
    condition := { using_attack_type := some "crush" }
    modifier := { accuracy_mult := 1.025, damage_mult := 1.025 }
    description := "+2.5% accuracy and damage with crush attacks" }

/-- `OBSIDIAN_SET` effect definition. -/
def OBSIDIAN_SET : PassiveEffect :=
  { id := "obsidian"
    name := "Obsidian Armour Set"
    source_type := SourceType.SET
    source_items := ["obsidian_helmet", "obsidian_platebody", "obsidian_platelegs"]
    combat_styles := [CombatStyle.MELEE]
    condition := { using_specific_weapon := some ["toktz", "tzhaar", "obsidian"] }
    modifier := { accuracy_mult := 1.10, damage_mult := 1.10 }
    description := "+10% accuracy and damage with obsidian weapons" }

/-- `OSMUMTENS_FANG` effect definition. -/
def OSMUMTENS_FANG : PassiveEffect :=
  { id := "fang"
    name := "Osmumten's Fang"
    source_type := SourceType.WEAPON
    source_items := ["osmumtens_fang", "osmumten's_fang"]
    combat_styles := [CombatStyle.MELEE]
    modifier := { double_accuracy_roll := true, min_hit_percent := some 0.15,
                  max_hit_percent := some 0.85 }
    description := "Rolls accuracy twice (hit if either succeeds), damage range 15-85% of max" }

/-- `SCYTHE_OF_VITUR` effect definition. -/
def SCYTHE_OF_VITUR : PassiveEffect :=
  { id := "scythe"
    name := "Scythe of Vitur"
    source_type := SourceType.WEAPON
    source_items := ["scythe_of_vitur"]
    combat_styles := [CombatStyle.MELEE]
    condition := { target_size_min := some 1 }
    modifier := { extra_hits := some [0.5, 0.25] }
    description := "Hits up to 3 times (100%/50%/25%) on large targets" }

/-- `TWISTED_BOW` effect definition. -/
def TWISTED_BOW : PassiveEffect :=
  { id := "tbow"
    name := "Twisted Bow"
    source_type := SourceType.WEAPON
    source_items := ["twisted_bow"]
    combat_styles := [CombatStyle.RANGED]
    modifier := { scales_with_target_magic := true }
    description := "Accuracy and damage scale with target's magic level" }

/-- `KERIS_PARTISAN` effect definition. -/
def KERIS_PARTISAN : PassiveEffect :=
  { id := "keris"
    name := "Keris Partisan"
    source_type := SourceType.WEAPON
    source_items := ["keris_partisan", "keris"]
    combat_styles := [CombatStyle.MELEE]
    condition := { vs_attribute := some "kalphite" }
    modifier := { damage_mult := 1.33 }
    proc_chance := 1.0
    description := "+33% damage vs kalphites (+ 1/51 chance for triple damage)" }

/-- `KERIS_TRIPLE_PROC` effect definition. -/
def KERIS_TRIPLE_PROC : PassiveEffect :=
  { id := "keris_triple"
    name := "Keris Partisan (Triple)"
    source_type := SourceType.WEAPON
    source_items := ["keris_partisan", "keris"]
    combat_styles := [CombatStyle.MELEE]
    condition := { vs_attribute := some "kalphite" }
    modifier := { damage_mult := 3.0 }
    proc_chance := 1/51
    description := "1/51 chance to deal triple damage vs kalphites" }

/-- `ARCLIGHT` effect definition. -/
def ARCLIGHT : PassiveEffect :=
  { id := "arclight"
    name := "Arclight"
    source_type := SourceType.WEAPON
    source_items := ["arclight"]
    combat_styles := [CombatStyle.MELEE]
    condition := { vs_attribute := some "demon" }
    modifier := { accuracy_mult := 1.70, damage_mult := 1.70 }
    description := "+70% accuracy and damage vs demons" }

/-- `DARKLIGHT` effect definition. -/
def DARKLIGHT : PassiveEffect :=
  { id := "darklight"
    name := "Darklight"
    source_type := SourceType.WEAPON
    source_items := ["darklight"]
    combat_styles := [CombatStyle.MELEE]
    condition := { vs_attribute := some "demon" }
    modifier := { accuracy_mult := 1.75, damage_mult := 1.75 }
    description := "+75% accuracy and damage vs demons (after upgrades)" }

/-- `SILVERLIGHT` effect definition. -/
def SILVERLIGHT : PassiveEffect :=
  { id := "silverlight"
    name := "Silverlight"
    source_type := SourceType.WEAPON
    source_items := ["silverlight"]
    combat_styles := [CombatStyle.MELEE]
    condition := { vs_attribute := some "demon" }
    modifier := { accuracy_mult := 1.60, damage_mult := 1.60 }
    description := "+60% accuracy and damage vs demons" }

/-- `LEAF_BLADED_AXE` effect definition. -/
def LEAF_BLADED_AXE : PassiveEffect :=
  { id := "leaf_axe"
    name := "Leaf-bladed Battleaxe"
    source_type := SourceType.WEAPON
    source_items := ["leaf-bladed_battleaxe", "leaf_bladed_battleaxe"]
    combat_styles := [CombatStyle.MELEE]
    condition := { vs_attribute := some "leafy" }
    modifier := { damage_mult := 1.175 }
    description := "+17.5% damage vs leafy creatures" }

/-- `DHAROKS_SET_EFFECT` effect definition. -/
def DHAROKS_SET_EFFECT : PassiveEffect :=
  { id := "dharoks"
    name := "Dharok's Set Effect"
    source_type := SourceType.SET
    source_items := ["dharoks_greataxe", "dharoks_helm", "dharoks_platebody", "dharoks_platelegs"]
    combat_styles := [CombatStyle.MELEE]
    modifier := { scales_with_missing_hp := true }
    proc_chance := 1.0
    description := "Max hit scales with missing HP: base * (1 + (max_hp - current_hp) / max_hp)" }

/-- `VERACS_SET_EFFECT` effect definition. -/
def VERACS_SET_EFFECT : PassiveEffect :=
  { id := "veracs"
    name := "Verac's Set Effect"
    source_type := SourceType.SET
    source_items := ["veracs_flail", "veracs_helm", "veracs_brassard", "veracs_plateskirt"]
    combat_styles := [CombatStyle.MELEE]
    modifier := { ignores_defence := true, ignores_prayer := true, damage_mult := 1.0 }
    proc_chance := 0.25
    description := "25% chance to ignore defence and protection prayers, +1 damage" }

/-- `GUTHANS_SET_EFFECT` effect definition. -/
def GUTHANS_SET_EFFECT : PassiveEffect :=
  { id := "guthans"
    name := "Guthan's Set Effect"
    source_type := SourceType.SET
    source_items := ["guthans_warspear", "guthans_helm", "guthans_platebody", "guthans_chainskirt"]
    combat_styles := [CombatStyle.MELEE]
    modifier := {}
    proc_chance := 0.25
    description := "25% chance to heal for damage dealt" }

/-- `KARILS_SET_EFFECT` effect definition. -/
def KARILS_SET_EFFECT : PassiveEffect :=
  { id := "karils"
    name := "Karil's Set Effect"
    source_type := SourceType.SET
    source_items := ["karils_crossbow", "karils_coif", "karils_leathertop", "karils_leatherskirt"]
    combat_styles := [CombatStyle.RANGED]
    modifier := {}
    proc_chance := 0.25
    description := "25% chance to lower target's agility by 20%" }

/-- `AHRIMS_SET_EFFECT` effect definition. -/
def AHRIMS_SET_EFFECT : PassiveEffect :=
  { id := "ahrims"
    name := "Ahrim's Set Effect"
    source_type := SourceType.SET
    source_items := ["ahrims_staff", "ahrims_hood", "ahrims_robetop", "ahrims_robeskirt"]
    combat_styles := [CombatStyle.MAGIC]
    modifier := {}
    proc_chance := 0.25
    description := "25% chance to lower target's strength by 5" }

/-- `TORAGS_SET_EFFECT` effect definition. -/
def TORAGS_SET_EFFECT : PassiveEffect :=
  { id := "torags"
    name := "Torag's Set Effect"
    source_type := SourceType.SET
    source_items := ["torags_hammers", "torags_helm", "torags_platebody", "torags_platelegs"]
    combat_styles := [CombatStyle.MELEE]
    modifier := {}
    proc_chance := 0.25
    description := "25% chance to lower target's run energy by 20%" }

/-- `BERSERKER_NECKLACE` effect definition. -/
def BERSERKER_NECKLACE : PassiveEffect :=
  { id := "berserker_neck"
    name := "Berserker Necklace"
    source_type := SourceType.AMULET
    source_items := ["berserker_necklace"]
    combat_styles := [CombatStyle.MELEE]
    condition := { using_specific_weapon := some ["toktz", "tzhaar", "obsidian"] }
    modifier := { damage_mult := 1.20 }
    description := "+20% damage with obsidian weapons" }

/-- `CRYSTAL_HELM` effect definition. -/
def CRYSTAL_HELM : PassiveEffect :=
  { id := "crystal_helm"
    name := "Crystal Helm"
    source_type := SourceType.ARMOR
    source_items := ["crystal_helm"]
    combat_styles := [CombatStyle.RANGED]
    condition := { using_specific_weapon := some ["crystal_bow", "bow_of_faerdhinen"] }
    modifier := { accuracy_mult := 1.05, damage_mult := 1.025 }
    additive_group := some "crystal_armor"
    description := "+5% accuracy, +2.5% damage with crystal bow/bofa" }

/-- `CRYSTAL_BODY` effect definition. -/
def CRYSTAL_BODY : PassiveEffect :=
  { id := "crystal_body"
    name := "Crystal Body"
    source_type := SourceType.ARMOR
    source_items := ["crystal_body"]
    combat_styles := [CombatStyle.RANGED]
    condition := { using_specific_weapon := some ["crystal_bow", "bow_of_faerdhinen"] }
    modifier := { accuracy_mult := 1.15, damage_mult := 1.075 }
    additive_group := some "crystal_armor"
    description := "+15% accuracy, +7.5% damage with crystal bow/bofa" }

/-- `CRYSTAL_LEGS` effect definition. -/
def CRYSTAL_LEGS : PassiveEffect :=
  { id := "crystal_legs"
    name := "Crystal Legs"
    source_type := SourceType.ARMOR
    source_items := ["crystal_legs"]
    combat_styles := [CombatStyle.RANGED]
    condition := { using_specific_weapon := some ["crystal_bow", "bow_of_faerdhinen"] }
    modifier := { accuracy_mult := 1.10, damage_mult := 1.05 }
    additive_group := some "crystal_armor"
    description := "+10% accuracy, +5% damage with crystal bow/bofa" }

/-- `SMOKE_BATTLESTAFF` effect definition. -/
def SMOKE_BATTLESTAFF : PassiveEffect :=
  { id := "smoke_staff"
    name := "Smoke Battlestaff"
    source_type := SourceType.WEAPON
    source_items := ["smoke_battlestaff"]
    combat_styles := [CombatStyle.MAGIC]
    modifier := { accuracy_mult := 1.10, damage_mult := 1.10 }
    description := "+10% accuracy and damage with standard spells" }

/-- `CRAWS_BOW` effect definition. -/
def CRAWS_BOW : PassiveEffect :=
  { id := "craws_bow"
    name := "Craw's Bow"
    source_type := SourceType.WEAPON
    source_items := ["craws_bow"]
    combat_styles := [CombatStyle.RANGED]
    condition := { in_wilderness := true }
    modifier := { accuracy_mult := 1.50, damage_mult := 1.50 }
    description := "+50% accuracy and damage in wilderness (when charged)" }

/-- `VIGGORAS_CHAINMACE` effect definition. -/
def VIGGORAS_CHAINMACE : PassiveEffect :=
  { id := "viggoras"
    name := "Viggora's Chainmace"
    source_type := SourceType.WEAPON
    source_items := ["viggoras_chainmace"]
    combat_styles := [CombatStyle.MELEE]
    condition := { in_wilderness := true }
    modifier := { accuracy_mult := 1.50, damage_mult := 1.50 }
    description := "+50% accuracy and damage in wilderness (when charged)" }

/-- `THAMMARONS_SCEPTRE` effect definition. -/
def THAMMARONS_SCEPTRE : PassiveEffect :=
  { id := "thammarons"
    name := "Thammaron's Sceptre"
    source_type := SourceType.WEAPON
    source_items := ["thammarons_sceptre"]
    combat_styles := [CombatStyle.MAGIC]
    condition := { in_wilderness := true }
    modifier := { accuracy_mult := 1.50, damage_mult := 1.50 }
    description := "+50% accuracy and damage in wilderness (when charged)" }

/-- `AMULET_OF_AVARICE` effect definition. -/
def AMULET_OF_AVARICE : PassiveEffect :=
  { id := "avarice"
    name := "Amulet of Avarice"
    source_type := SourceType.AMULET
    source_items := ["amulet_of_avarice"]
    combat_styles := [CombatStyle.MELEE, CombatStyle.RANGED, CombatStyle.MAGIC]
    condition := { in_wilderness := true, vs_attribute := some "revenant" }
    modifier := { accuracy_mult := 1.20, damage_mult := 1.20 }
    description := "+20% accuracy and damage vs revenants in wilderness" }

/-- `RUBY_BOLTS_E` effect definition (the second, surviving binding). -/
def RUBY_BOLTS_E : PassiveEffect :=
  { id := "ruby_bolts_e"
    name := "Ruby bolts (e)"
    source_type := SourceType.AMMO
    source_items := ["ruby_bolts_e", "ruby_dragon_bolts_e"]
    combat_styles := [CombatStyle.RANGED]
    modifier := { damage_mult := 1.0 }
    proc_chance := 0.06
    description := "Blood Forfeit: 6% chance to deal 20% of target's current HP (max 100), costs 10% of your HP" }

/-- `DIAMOND_BOLTS_E` effect definition (the second, surviving binding). -/
def DIAMOND_BOLTS_E : PassiveEffect :=
  { id := "diamond_bolts_e"
    name := "Diamond bolts (e)"
    source_type := SourceType.AMMO
    source_items := ["diamond_bolts_e", "diamond_dragon_bolts_e"]
    combat_styles := [CombatStyle.RANGED]
    modifier := { ignores_defence := true }
    proc_chance := 0.10
    description := "Armour Piercing: 10% chance to ignore target's ranged defence" }

/-- `ONYX_BOLTS_E` effect definition (the second, surviving binding). -/
def ONYX_BOLTS_E : PassiveEffect :=
  { id := "onyx_bolts_e"
    name := "Onyx bolts (e)"
    source_type := SourceType.AMMO
    source_items := ["onyx_bolts_e", "onyx_dragon_bolts_e"]
    combat_styles := [CombatStyle.RANGED]
    modifier := { damage_mult := 1.20 }
    proc_chance := 0.11
    description := "Life Leech: 11% chance to deal +20% damage and heal 25% of damage dealt" }

/-- `DRAGONSTONE_BOLTS_E` effect definition (the second, surviving binding). -/
def DRAGONSTONE_BOLTS_E : PassiveEffect :=
  { id := "dragonstone_bolts_e"
    name := "Dragonstone bolts (e)"
    source_type := SourceType.AMMO
    source_items := ["dragonstone_bolts_e", "dragonstone_dragon_bolts_e"]
    combat_styles := [CombatStyle.RANGED]
    modifier := { damage_mult := 1.0 }
    proc_chance := 0.06
    description := "Dragon's Breath: 6% chance to inflict dragonfire (damage based on ranged level)" }

/-- `OPAL_BOLTS_E` effect definition (the second, surviving binding). -/
def OPAL_BOLTS_E : PassiveEffect :=
  { id := "opal_bolts_e"
    name := "Opal bolts (e)"
    source_type := SourceType.AMMO
    source_items := ["opal_bolts_e", "opal_dragon_bolts_e"]
    combat_styles := [CombatStyle.RANGED]
    modifier := { damage_mult := 1.0 }
    proc_chance := 0.05
    description := "Lucky Lightning: 5% chance to deal extra damage (10% of ranged level)" }

/-- `PEARL_BOLTS_E` effect definition. -/
def PEARL_BOLTS_E : PassiveEffect :=
  { id := "pearl_bolts_e"
    name := "Pearl bolts (e)"
    source_type := SourceType.AMMO
    source_items := ["pearl_bolts_e", "pearl_dragon_bolts_e"]
    combat_styles := [CombatStyle.RANGED]
    modifier := { damage_mult := 1.0 }
    proc_chance := 0.06
    description := "Sea Curse: 6% chance to deal extra water damage (1/15 ranged level, 1/5 vs fiery)" }

/-- `EMERALD_BOLTS_E` effect definition. -/
def EMERALD_BOLTS_E : PassiveEffect :=
  { id := "emerald_bolts_e"
    name := "Emerald bolts (e)"
    source_type := SourceType.AMMO
    source_items := ["emerald_bolts_e", "emerald_dragon_bolts_e"]
    combat_styles := [CombatStyle.RANGED]
    modifier := { damage_mult := 1.0 }
    proc_chance := 0.55
    description := "Magical Poison: 55% chance to inflict poison (5 damage)" }

/-- `DHAROKS_SET` set bonus. -/
def DHAROKS_SET : SetBonus :=
  { id := "dharoks_set", name := "Dharok's Set"
    required_items := ["dharoks_greataxe", "dharoks_helm", "dharoks_platebody", "dharoks_platelegs"]
    min_pieces := 4, effect := DHAROKS_SET_EFFECT }

/-- `VERACS_SET` set bonus. -/
def VERACS_SET : SetBonus :=
  { id := "veracs_set", name := "Verac's Set"
    required_items := ["veracs_flail", "veracs_helm", "veracs_brassard", "veracs_plateskirt"]
    min_pieces := 4, effect := VERACS_SET_EFFECT }

/-- `GUTHANS_SET` set bonus. -/
def GUTHANS_SET : SetBonus :=
  { id := "guthans_set", name := "Guthan's Set"
    required_items := ["guthans_warspear", "guthans_helm", "guthans_platebody", "guthans_chainskirt"]
    min_pieces := 4, effect := GUTHANS_SET_EFFECT }

/-- `KARILS_SET` set bonus. -/
def KARILS_SET : SetBonus :=
  { id := "karils_set", name := "Karil's Set"
    required_items := ["karils_crossbow", "karils_coif", "karils_leathertop", "karils_leatherskirt"]
    min_pieces := 4, effect := KARILS_SET_EFFECT }

/-- `AHRIMS_SET` set bonus. -/
def AHRIMS_SET : SetBonus :=
  { id := "ahrims_set", name := "Ahrim's Set"
    required_items := ["ahrims_staff", "ahrims_hood", "ahrims_robetop", "ahrims_robeskirt"]
    min_pieces := 4, effect := AHRIMS_SET_EFFECT }

/-- `TORAGS_SET` set bonus. -/
def TORAGS_SET : SetBonus :=
  { id := "torags_set", name := "Torag's Set"
    required_items := ["torags_hammers", "torags_helm", "torags_platebody", "torags_platelegs"]
    min_pieces := 4, effect := TORAGS_SET_EFFECT }

/-- `VOID_MELEE_SET` set bonus. -/
def VOID_MELEE_SET : SetBonus :=
  { id := "void_melee_set", name := "Void Knight (Melee)"
    required_items := ["void_melee_helm", "void_knight_top", "void_knight_robe", "void_knight_gloves"]
    min_pieces := 4, effect := VOID_MELEE }

/-- `VOID_RANGED_SET` set bonus. -/
def VOID_RANGED_SET : SetBonus :=
  { id := "void_ranged_set", name := "Void Knight (Ranged)"
    required_items := ["void_ranger_helm", "void_knight_top", "void_knight_robe", "void_knight_gloves"]
    min_pieces := 4, effect := VOID_RANGED }

/-- `VOID_MAGIC_SET` set bonus. -/
def VOID_MAGIC_SET : SetBonus :=
  { id := "void_magic_set", name := "Void Knight (Magic)"
    required_items := ["void_mage_helm", "void_knight_top", "void_knight_robe", "void_knight_gloves"]
    min_pieces := 4, effect := VOID_MAGIC }

/-- `ELITE_VOID_RANGED_SET` set bonus. -/
def ELITE_VOID_RANGED_SET : SetBonus :=
  { id := "elite_void_ranged_set", name := "Elite Void Knight (Ranged)"
    required_items := ["void_ranger_helm", "elite_void_top", "elite_void_robe", "void_knight_gloves"]
    min_pieces := 4, effect := ELITE_VOID_RANGED }

/-- `ELITE_VOID_MAGIC_SET` set bonus. -/
def ELITE_VOID_MAGIC_SET : SetBonus :=
  { id := "elite_void_magic_set", name := "Elite Void Knight (Magic)"
    required_items := ["void_mage_helm", "elite_void_top", "elite_void_robe", "void_knight_gloves"]
    min_pieces := 4, effect := ELITE_VOID_MAGIC }

/-- `INQUISITOR_SET_BONUS` set bonus. -/
def INQUISITOR_SET_BONUS : SetBonus :=
  { id := "inquisitor_set", name := "Inquisitor's Armour"
    required_items := ["inquisitor_helm", "inquisitor_hauberk", "inquisitor_plateskirt"]
    min_pieces := 3, effect := INQUISITOR_SET }

/-- `OBSIDIAN_SET_BONUS` set bonus. -/
def OBSIDIAN_SET_BONUS : SetBonus :=
  { id := "obsidian_set", name := "Obsidian Armour"
    required_items := ["obsidian_helmet", "obsidian_platebody", "obsidian_platelegs"]
    min_pieces := 3, effect := OBSIDIAN_SET }

/-- `ALL_EFFECTS` as an association list.  Keys appear in the insertion order
of the source's dict literal; the literal repeats the five first enchanted-bolt
keys, and a Python dict keeps the first position with the last value, so each
key appears here once, at its first position, bound to the surviving value. -/
def ALL_EFFECTS : List (String × PassiveEffect) :=
  [("void_melee", VOID_MELEE),
   ("void_ranged", VOID_RANGED),
   ("void_magic", VOID_MAGIC),
   ("elite_void_ranged", ELITE_VOID_RANGED),
   ("elite_void_magic", ELITE_VOID_MAGIC),
   ("slayer_helm", SLAYER_HELM),
   ("slayer_helm_i", SLAYER_HELM_IMBUED),
   ("salve", SALVE_AMULET),
   ("salve_e", SALVE_AMULET_E),
   ("salve_ei", SALVE_AMULET_EI),
   ("dh_lance", DRAGON_HUNTER_LANCE),
   ("dhcb", DRAGON_HUNTER_CROSSBOW),
   ("inquisitor", INQUISITOR_SET),
   ("obsidian", OBSIDIAN_SET),
   ("fang", OSMUMTENS_FANG),
   ("scythe", SCYTHE_OF_VITUR),
   ("tbow", TWISTED_BOW),
   ("keris", KERIS_PARTISAN),
   ("keris_triple", KERIS_TRIPLE_PROC),
   ("arclight", ARCLIGHT),
   ("darklight", DARKLIGHT),
   ("silverlight", SILVERLIGHT),
   ("leaf_axe", LEAF_BLADED_AXE),
   ("dharoks", DHAROKS_SET_EFFECT),
   ("veracs", VERACS_SET_EFFECT),
   ("guthans", GUTHANS_SET_EFFECT),
   ("karils", KARILS_SET_EFFECT),
   ("ahrims", AHRIMS_SET_EFFECT),
   ("torags", TORAGS_SET_EFFECT),
   ("ruby_bolts_e", RUBY_BOLTS_E),
   ("diamond_bolts_e", DIAMOND_BOLTS_E),
   ("dragonstone_bolts_e", DRAGONSTONE_BOLTS_E),
   ("onyx_bolts_e", ONYX_BOLTS_E),
   ("opal_bolts_e", OPAL_BOLTS_E),
   ("berserker_neck", BERSERKER_NECKLACE),
   ("crystal_helm", CRYSTAL_HELM),
   ("crystal_body", CRYSTAL_BODY),
   ("crystal_legs", CRYSTAL_LEGS),
   ("smoke_staff", SMOKE_BATTLESTAFF),
   ("craws_bow", CRAWS_BOW),
   ("viggoras", VIGGORAS_CHAINMACE),
   ("thammarons", THAMMARONS_SCEPTRE),
   ("avarice", AMULET_OF_AVARICE),
   ("pearl_bolts_e", PEARL_BOLTS_E),
   ("emerald_bolts_e", EMERALD_BOLTS_E)]

/-- `ALL_SET_BONUSES` as an association list in insertion order. -/
def ALL_SET_BONUSES : List (String × SetBonus) :=
  [("dharoks_set", DHAROKS_SET),
   ("veracs_set", VERACS_SET),
   ("guthans_set", GUTHANS_SET),
   ("karils_set", KARILS_SET),
   ("ahrims_set", AHRIMS_SET),
   ("torags_set", TORAGS_SET),
   ("void_melee_set", VOID_MELEE_SET),
   ("void_ranged_set", VOID_RANGED_SET),
   ("void_magic_set", VOID_MAGIC_SET),
   ("elite_void_ranged_set", ELITE_VOID_RANGED_SET),
   ("elite_void_magic_set", ELITE_VOID_MAGIC_SET),
   ("inquisitor_set", INQUISITOR_SET_BONUS),
   ("obsidian_set", OBSIDIAN_SET_BONUS)]

/-- `WEAPON_EFFECTS` as an association list in insertion order (normalized
weapon-name pattern to effect). -/
def WEAPON_EFFECTS : List (String × PassiveEffect) :=
  [("osmumtens_fang", OSMUMTENS_FANG),
   ("osmumten's_fang", OSMUMTENS_FANG),
   ("scythe_of_vitur", SCYTHE_OF_VITUR),
   ("twisted_bow", TWISTED_BOW),
   ("dragon_hunter_lance", DRAGON_HUNTER_LANCE),
   ("dragon_hunter_crossbow", DRAGON_HUNTER_CROSSBOW),
   ("keris_partisan", KERIS_PARTISAN),
   ("arclight", ARCLIGHT),
   ("darklight", DARKLIGHT),
   ("silverlight", SILVERLIGHT),
   ("leaf-bladed_battleaxe", LEAF_BLADED_AXE),
   ("leaf_bladed_battleaxe", LEAF_BLADED_AXE),
   ("smoke_battlestaff", SMOKE_BATTLESTAFF),
   ("craws_bow", CRAWS_BOW),
   ("viggoras_chainmace", VIGGORAS_CHAINMACE),
   ("thammarons_sceptre", THAMMARONS_SCEPTRE)]

/-! The engine of src/combat/effect_engine.py. -/

/-- The weapon-name normalisation of `detect_weapon_effects`:
`weapon_name.lower().replace(" ", "_").replace("'", "")`. -/
def weaponNorm (s : String) : String := stripApos (replSpace (pyLower s))

/-- The `context.target.tile_size if context.target else 1` idiom. -/
def contextTargetSize (ctx : CombatContext) : ℤ :=
  match ctx.target with
  | some t => t.tile_size
  | none => 1

/-- `detect_weapon_effects` from src/combat/effect_engine.py: scan the
`WEAPON_EFFECTS` registry in order; a pattern matches when it contains the
normalised weapon name or vice versa; then gate on style and condition. -/
def detect_weapon_effects (weapon_name : String) (ctx : CombatContext) :
    List ActiveEffect :=
  let weapon_lower := weaponNorm weapon_name
  WEAPON_EFFECTS.filterMap fun pe =>
    if pyStrIn pe.1 weapon_lower || pyStrIn weapon_lower pe.1 then
      if pe.2.applies_to_style ctx.combat_style then
        if pe.2.condition.is_met (some (get_target_attributes ctx.target))
            ctx.on_slayer_task ctx.in_wilderness ctx.player_hp_percent
            (contextTargetSize ctx) (some ctx.attack_type) (some weapon_name) then
          some { effect := pe.2, source := weapon_name,
                 effective_proc_chance := pe.2.proc_chance }
        else none
      else none
    else none

/-- `weapon_effect_ids` as computed at the top of `detect_item_effects`:
`{eff.id for eff in WEAPON_EFFECTS.values()}` (a list here; only membership is
ever asked of it). -/
def weapon_effect_ids : List String := WEAPON_EFFECTS.map fun pe => pe.2.id

/-- `set_effect_ids` as computed at the top of `detect_item_effects`:
`{sb.effect.id for sb in ALL_SET_BONUSES.values()}`. -/
def set_effect_ids : List String := ALL_SET_BONUSES.map fun sb => sb.2.effect.id

/-- `detect_item_effects` from src/combat/effect_engine.py: scan `ALL_EFFECTS`
in order, skipping keys that are weapon-effect ids, keys that are set-bonus
effect ids, and effects of source type `SET`; then require some equipped item
to grant the effect, and gate on style and condition. -/
def detect_item_effects (equipped_items : List String) (ctx : CombatContext) :
    List ActiveEffect :=
  ALL_EFFECTS.filterMap fun entry =>
    if weapon_effect_ids.contains entry.1 then none
    else if set_effect_ids.contains entry.1 then none
    else if entry.2.source_type = SourceType.SET then none
    else if !(equipped_items.any fun item => entry.2.is_from_item item) then none
    else if !(entry.2.applies_to_style ctx.combat_style) then none
    else if entry.2.condition.is_met (some (get_target_attributes ctx.target))
        ctx.on_slayer_task ctx.in_wilderness ctx.player_hp_percent
        (contextTargetSize ctx) (some ctx.attack_type) (some ctx.weapon_name) then
      some { effect := entry.2, source := entry.2.name,
             effective_proc_chance := entry.2.proc_chance }
    else none

/-- `detect_set_bonuses` from src/combat/effect_engine.py.  The provenance
string carries the piece count as in the source's f-string. -/
def detect_set_bonuses (equipped_items : List String) (ctx : CombatContext) :
    List ActiveEffect :=
  ALL_SET_BONUSES.filterMap fun entry =>
    let set_bonus := entry.2
    if !(set_bonus.is_active equipped_items) then none
    else if !(set_bonus.effect.applies_to_style ctx.combat_style) then none
    else if set_bonus.effect.condition.is_met (some (get_target_attributes ctx.target))
        ctx.on_slayer_task ctx.in_wilderness ctx.player_hp_percent
        (contextTargetSize ctx) (some ctx.attack_type) (some ctx.weapon_name) then
      some { effect := set_bonus.effect
             source := set_bonus.name ++ " (" ++
               toString (set_bonus.get_piece_count equipped_items) ++ "/" ++
               toString set_bonus.required_items.length ++ ")"
             effective_proc_chance := set_bonus.effect.proc_chance }
    else none

/-- `get_active_effects` from src/combat/effect_engine.py: the three passes
concatenated. -/
def get_active_effects (ctx : CombatContext) : List ActiveEffect :=
  detect_weapon_effects ctx.weapon_name ctx ++
    detect_item_effects ctx.equipped_items ctx ++
    detect_set_bonuses ctx.equipped_items ctx

/-- The grouping key used by `resolve_stacking`.  The source tests
`if eff.stacking_group:`, a Python truthiness check, so `None` and the empty
string both mean "no group". -/
def stackKey (e : ActiveEffect) : Option String :=
  match e.effect.stacking_group with
  | some s => if s = "" then none else some s
  | none => none

/-- The winner of one stacking group: the source stably sorts the group's
members by `stacking_priority` descending and takes the head, which is the
first member attaining the maximal priority.  `pickFirstMax` computes that
element directly. -/
def pickFirstMax (first : ActiveEffect) (rest : List ActiveEffect) : ActiveEffect :=
  rest.foldl (fun best e =>
    if best.stacking_priority < e.stacking_priority then e else best) first

/-- The keys of a Python dict built by appending under a computed key, in
iteration order: order of first appearance. -/
def keysInOrder (key : ActiveEffect → Option String) (effects : List ActiveEffect) :
    List String :=
  effects.foldl (fun acc e =>
    match key e with
    | some g => if g ∈ acc then acc else acc ++ [g]
    | none => acc) []

/-- The winner of the stacking group `k`: the head of the in-order bucket
`by_group[k]` after the stable descending sort by priority (`none` when the
group has no member, in which case the source's dict has no such key). -/
def groupWinner (effects : List ActiveEffect) (k : String) : Option ActiveEffect :=
  match effects.filter (fun e => stackKey e = some k) with
  | [] => none
  | f :: rest => some (pickFirstMax f rest)

/-- `resolve_stacking` from src/combat/effect_engine.py.  The source builds a
dict `by_group` mapping each truthy stacking group to its members in input
order, keeps the ungrouped effects in order, and then appends, per group key in
insertion order, the head of the group's members sorted stably by descending
priority.  Here the ungrouped pass-through is the filter on `stackKey = none`,
the dict keys are `keysInOrder`, each bucket is the in-order filter on its key,
and the stable-sort head is `pickFirstMax` (via `groupWinner`). -/
def resolve_stacking (effects : List ActiveEffect) : List ActiveEffect :=
  let no_group := effects.filter fun e => stackKey e = none
  let winners := (keysInOrder stackKey effects).filterMap (groupWinner effects)
  no_group ++ winners

/-- Python `int(q)` for a value that is a float in the source: truncation
toward zero. -/
def pyInt (q : ℚ) : ℤ := if 0 ≤ q then ⌊q⌋ else -⌊-q⌋

/-- `calculate_dharok_multiplier` from src/combat/effect_engine.py:
`current_hp = max(1, int(player_hp_percent * player_max_hp))`, then
`1 + (max_hp - current_hp) / max_hp`. -/
def calculate_dharok_multiplier (player_hp_percent : ℚ) (player_max_hp : ℤ) : ℚ :=
  let current_hp : ℤ := max 1 (pyInt (player_hp_percent * player_max_hp))
  let missing_hp : ℤ := player_max_hp - current_hp
  1 + (missing_hp : ℚ) / (player_max_hp : ℚ)

/-- The grouping key used by the additive-group split of `resolve_modifiers`.
The source tests `if eff.effect.additive_group:`, a truthiness check, so
`None` and the empty string both mean "no additive group". -/
def addKey (e : ActiveEffect) : Option String :=
  match e.effect.additive_group with
  | some s => if s = "" then none else some s
  | none => none

/-- The guaranteed effects fed to the numeric combination:
`[e for e in resolve_stacking(effects) if e.effective_proc_chance >= 1.0]`. -/
def alwaysActive (effects : List ActiveEffect) : List ActiveEffect :=
  (resolve_stacking effects).filter fun e => decide (1 ≤ e.effective_proc_chance)

/-- The probabilistic effects left for the caller:
`[e for e in resolve_stacking(effects) if e.effective_proc_chance < 1.0]`. -/
def procOf (effects : List ActiveEffect) : List ActiveEffect :=
  (resolve_stacking effects).filter fun e => decide (e.effective_proc_chance < 1)

/-- The synthetic modifier of one additive group: `1 + sum(mult - 1)` on each
axis over the group's members (all other fields default). -/
def groupModifier (group_effects : List ActiveEffect) : EffectModifier :=
  { accuracy_mult :=
      1 + (group_effects.map fun e => e.effect.modifier.accuracy_mult - 1).sum
    damage_mult :=
      1 + (group_effects.map fun e => e.effect.modifier.damage_mult - 1).sum }

/-- The `combined` modifier of `resolve_modifiers` before the Dharok special
case: fold `combine` over the guaranteed effects without an additive group
(in order), then over one synthetic modifier per additive group (group keys in
order of first appearance, each group's members in input order). -/
def resolveCombinedPre (effects : List ActiveEffect) : EffectModifier :=
  let always_active := alwaysActive effects
  let multiplicative_effects := always_active.filter fun e => addKey e = none
  let combined0 := multiplicative_effects.foldl
    (fun c e => c.combine e.effect.modifier) {}
  (keysInOrder addKey always_active).foldl
    (fun c g =>
      c.combine (groupModifier (always_active.filter fun e => addKey e = some g)))
    combined0

/-- `resolve_modifiers` from src/combat/effect_engine.py: stacking resolution,
guaranteed/probabilistic split, multiplicative and additive combination, then
the Dharok missing-HP special case (multiply `damage_mult` by the live
multiplier and clear the flag), and finally the `ResolvedModifiers` record. -/
def resolve_modifiers (effects : List ActiveEffect) (ctx : CombatContext) :
    ResolvedModifiers :=
  let c := resolveCombinedPre effects
  let combined :=
    if c.scales_with_missing_hp then
      { c with
        damage_mult := c.damage_mult *
          calculate_dharok_multiplier ctx.player_hp_percent ctx.player_max_hp
        scales_with_missing_hp := false }
    else c
  { accuracy_mult := combined.accuracy_mult
    damage_mult := combined.damage_mult
    double_accuracy_roll := combined.double_accuracy_roll
    min_hit_percent := combined.min_hit_percent
    max_hit_percent := combined.max_hit_percent
    extra_hits := combined.extra_hits
    scales_with_target_magic := combined.scales_with_target_magic
    scales_with_missing_hp := combined.scales_with_missing_hp
    ignores_defence := combined.ignores_defence
    ignores_prayer := combined.ignores_prayer
    active_effects := alwaysActive effects
    proc_effects := procOf effects }

/-- `EffectEngine.get_modifiers` from src/combat/effect_engine.py (the class
holds no state; its method composes detection and resolution). -/
def EffectEngine.get_modifiers (ctx : CombatContext) : ResolvedModifiers :=
  resolve_modifiers (get_active_effects ctx) ctx

/-! Concrete fixtures used by the theorems below. -/

/-- The weapon-pattern match as the spec's words state it: some pattern, after
normalising both sides, is a substring of the weapon name *or vice versa*
(bidirectional containment).  Stated for comparison with the code's
`EffectCondition.is_met`, which tests only one direction. -/
def specBidirectionalWeaponMatch (patterns : List String) (weapon : String) : Bool :=
  patterns.any fun p =>
    pyStrIn (condNorm p) (condNorm weapon) || pyStrIn (condNorm weapon) (condNorm p)

/-- A condition whose only populated field is a weapon-pattern list. -/
def condOnlyPatterns : EffectCondition := { using_specific_weapon := some ["abcd"] }

/-- A condition whose only populated field is `vs_attribute`. -/
def condVsUndead : EffectCondition := { vs_attribute := some "undead" }

/-- A condition with both a target-dependent field and a weapon-pattern list. -/
def condUndeadAndPatterns : EffectCondition :=
  { vs_attribute := some "undead", using_specific_weapon := some ["abcd"] }

/-- A minimal effect with a given id, stacking group and priority. -/
def mkStackEff (i : String) (g : Option String) (p : ℤ) : ActiveEffect :=
  { effect := { id := i, name := i, source_type := SourceType.ARMOR,
                source_items := [i], combat_styles := [CombatStyle.MELEE],
                stacking_group := g, stacking_priority := p }
    source := i }

/-- Two distinct effects sharing the empty-string stacking group. -/
def stackEmptyA : ActiveEffect := mkStackEff "a" (some "") 1

/-- Second effect of the empty-string stacking-group pair. -/
def stackEmptyB : ActiveEffect := mkStackEff "b" (some "") 2

/-- Two effects sharing the (non-empty) stacking group "g". -/
def stackGA : ActiveEffect := mkStackEff "ga" (some "g") 1

/-- Higher-priority member of stacking group "g". -/
def stackGB : ActiveEffect := mkStackEff "gb" (some "g") 5

/-- A minimal guaranteed effect with a given id, additive group and accuracy
multiplier. -/
def mkAddEff (i : String) (g : Option String) (acc : ℚ) : ActiveEffect :=
  { effect := { id := i, name := i, source_type := SourceType.ARMOR,
                source_items := [i], combat_styles := [CombatStyle.RANGED],
                modifier := { accuracy_mult := acc },
                additive_group := g }
    source := i }

/-- First of the three additive-group effects of the spec's 1.05/1.10/1.15
scenario. -/
def addEff105 : ActiveEffect := mkAddEff "a105" (some "grp") 1.05

/-- Second of the three additive-group effects. -/
def addEff110 : ActiveEffect := mkAddEff "a110" (some "grp") 1.10

/-- Third of the three additive-group effects. -/
def addEff115 : ActiveEffect := mkAddEff "a115" (some "grp") 1.15

/-- An effect whose additive group is the empty string. -/
def addEmptyA : ActiveEffect := mkAddEff "ea" (some "") 1.5

/-- A second effect whose additive group is the empty string. -/
def addEmptyB : ActiveEffect := mkAddEff "eb" (some "") 1.5

/-- A neutral context (nothing equipped, no target). -/
def ctxNeutral : CombatContext :=
  { combat_style := CombatStyle.RANGED, attack_type := "ranged",
    weapon_name := "crystal bow", equipped_items := [] }

/-- A target with every attribute flag false (non-undead in particular). -/
def nonUndeadTarget : MonsterStats := {}

/-- The slayer-helm scenario context: one equipped item, `slayer_helmet_i`,
which fuzzy-matches the source items of both the imbued and the unimbued
slayer-helm effects; on a slayer task against a non-undead target. -/
def ctxSlayer (s : CombatStyle) : CombatContext :=
  { combat_style := s, attack_type := "slash", weapon_name := "abyssal_whip",
    equipped_items := ["slayer_helmet_i"], target := some nonUndeadTarget,
    on_slayer_task := true }

/-- The `ActiveEffect` the item pass emits for the imbued slayer helmet. -/
def slayerImbuedActive : ActiveEffect :=
  { effect := SLAYER_HELM_IMBUED, source := "Slayer Helmet (i)",
    effective_proc_chance := 1 }

/-- The `ActiveEffect` the item pass emits for the unimbued slayer helmet. -/
def slayerHelmActive : ActiveEffect :=
  { effect := SLAYER_HELM, source := "Slayer Helmet",
    effective_proc_chance := 1 }

/-- The no-context baseline: empty gear, no target, a weapon name matching no
weapon-effect pattern. -/
def ctxNoGear : CombatContext :=
  { combat_style := CombatStyle.MELEE, attack_type := "slash",
    weapon_name := "abyssal_whip", equipped_items := [] }

/-- A `PassiveEffect` built by the (unchecked) constructor with `proc_chance`
out of range. -/
def badProcEffect : PassiveEffect :=
  { id := "bad_proc", name := "Bad Proc", source_type := SourceType.RING,
    source_items := ["bad_ring"], combat_styles := [CombatStyle.MELEE],
    proc_chance := 1.5 }

/-- The out-of-range effect wrapped as an `ActiveEffect`, as the detectors
would wrap it. -/
def badProcActive : ActiveEffect :=
  { effect := badProcEffect, source := "Bad Proc",
    effective_proc_chance := badProcEffect.proc_chance }

/-- A guaranteed Dharok-style active effect (the set-bonus pass would emit it
with a piece-count provenance; the provenance does not enter resolution). -/
def dharokActive : ActiveEffect :=
  { effect := DHAROKS_SET_EFFECT, source := "Dharok's Set (4/4)",
    effective_proc_chance := 1 }

/-- A context at 1/99 HP with 99 max HP. -/
def ctxDharokLow : CombatContext :=
  { combat_style := CombatStyle.MELEE, attack_type := "slash",
    weapon_name := "dharoks_greataxe", equipped_items := [],
    player_hp_percent := 1/99, player_max_hp := 99 }

/-- Modifier fixture: `min_hit_percent = 0.0` (non-null but falsy). -/
def modZeroMin : EffectModifier := { min_hit_percent := some 0 }

/-- Modifier fixture: `min_hit_percent = 0.5`. -/
def modHalfMin : EffectModifier := { min_hit_percent := some 0.5 }

/-- Modifier fixture for the combine witness: accuracy 1.2, a non-zero
`min_hit_percent` and a flag set. -/
def modA : EffectModifier :=
  { accuracy_mult := 1.2, damage_mult := 1.1, double_accuracy_roll := true,
    min_hit_percent := some 0.3 }

/-- Second modifier fixture for the combine witness. -/
def modB : EffectModifier :=
  { accuracy_mult := 1.5, damage_mult := 2, ignores_prayer := true,
    min_hit_percent := some 0.6, extra_hits := some [0.5] }

section Proofs

attribute [local semireducible] Rat.mul Rat.inv Rat.add Rat.sub Rat.ofScientific

/-- `resolve_stacking` on a one-element list returns that list: the single
effect is either ungrouped (passes through) or the lone, winning member of its
group. -/
theorem resolve_stacking_singleton (a : ActiveEffect) : resolve_stacking [a] = [a] := by
  cases h : stackKey a <;>
    simp [resolve_stacking, keysInOrder, pickFirstMax, groupWinner, List.filter, h]

/-- C4 (counterexample): with the single pattern `"abcd"` and the weapon name
`"abc"`, the normalised weapon name is a substring of the pattern, so the
spec's bidirectional containment holds, yet `is_met` is false: the code tests
only whether a pattern is a substring of the weapon name, not vice versa. -/
theorem is_met_weapon_bidirectional_refuted :
    specBidirectionalWeaponMatch ["abcd"] "abc" = true ∧
    condOnlyPatterns.using_specific_weapon = some ["abcd"] ∧
    condOnlyPatterns.is_met none false false 1 1 none (some "abc") = false := by
  decide

/-- C4 (amended): for a condition whose only populated field is a weapon
pattern list, `is_met` with a present weapon name holds iff some pattern,
after normalising both sides, is a substring of the normalised weapon name
(one direction only). -/
theorem is_met_weapon_conjunct_unidirectional (ps : List String) (w : String)
    (tattrs : Option (List String)) (ost iw : Bool) (hp : ℚ) (ts : ℤ)
    (atk : Option String) :
    EffectCondition.is_met { using_specific_weapon := some ps } tattrs ost iw hp ts
      atk (some w) = ps.any fun p => pyStrIn (condNorm p) (condNorm w) := by
  cases h : ps.any fun p => pyStrIn (condNorm p) (condNorm w) <;>
    simp [EffectCondition.is_met, h]

/-- C5 (counterexample): combining a modifier whose `min_hit_percent` is the
non-null value `0.0` with one whose value is `0.5` yields `0.5`: Python `or`
treats `0.0` as falsy, so the first non-null value does *not* win. -/
theorem combine_first_nonnull_refuted :
    modZeroMin.min_hit_percent = some 0 ∧
    (modZeroMin.combine modHalfMin).min_hit_percent = modHalfMin.min_hit_percent ∧
    (modZeroMin.combine modHalfMin).min_hit_percent ≠ some 0 := by
  decide

/-- C5 (amended): `combine` multiplies the two multiplier fields, takes the
boolean `or` of every flag, and resolves each optional field by Python `or`:
the left value wins when it is non-null and truthy (non-zero, non-empty), and
a left value of `None`, `0.0` or `[]` falls through to the right value. -/
theorem effect_modifier_combine_spec (a b : EffectModifier) :
    (a.combine b).accuracy_mult = a.accuracy_mult * b.accuracy_mult ∧
    (a.combine b).damage_mult = a.damage_mult * b.damage_mult ∧
    (a.combine b).double_accuracy_roll = (a.double_accuracy_roll || b.double_accuracy_roll) ∧
    (a.combine b).scales_with_target_magic
      = (a.scales_with_target_magic || b.scales_with_target_magic) ∧
    (a.combine b).scales_with_missing_hp
      = (a.scales_with_missing_hp || b.scales_with_missing_hp) ∧
    (a.combine b).ignores_defence = (a.ignores_defence || b.ignores_defence) ∧
    (a.combine b).ignores_prayer = (a.ignores_prayer || b.ignores_prayer) ∧
    (∀ x : ℚ, a.min_hit_percent = some x → x ≠ 0 →
      (a.combine b).min_hit_percent = some x) ∧
    (a.min_hit_percent = none ∨ a.min_hit_percent = some 0 →
      (a.combine b).min_hit_percent = b.min_hit_percent) ∧
    (∀ x : ℚ, a.max_hit_percent = some x → x ≠ 0 →
      (a.combine b).max_hit_percent = some x) ∧
    (a.max_hit_percent = none ∨ a.max_hit_percent = some 0 →
      (a.combine b).max_hit_percent = b.max_hit_percent) ∧
    (∀ l : List ℚ, a.extra_hits = some l → l ≠ [] →
      (a.combine b).extra_hits = some l) ∧
    (a.extra_hits = none ∨ a.extra_hits = some [] →
      (a.combine b).extra_hits = b.extra_hits) := by
  refine ⟨rfl, rfl, rfl, rfl, rfl, rfl, rfl, ?_, ?_, ?_, ?_, ?_, ?_⟩
  · intro x hx hx0
    simp [EffectModifier.combine, pyOrQ, hx, hx0]
  · rintro (h | h) <;> simp [EffectModifier.combine, pyOrQ, h]
  · intro x hx hx0
    simp [EffectModifier.combine, pyOrQ, hx, hx0]
  · rintro (h | h) <;> simp [EffectModifier.combine, pyOrQ, h]
  · intro l hl hl0
    simp [EffectModifier.combine, pyOrList, hl, hl0]
  · rintro (h | h) <;> simp [EffectModifier.combine, pyOrList, h]

/-- C5 (witness): the amended combine rule evaluated on concrete modifiers —
the left non-zero `min_hit_percent` wins, and the left `None` `extra_hits`
falls through to the right value. -/
theorem effect_modifier_combine_spec_witness :
    (modA.combine modB).min_hit_percent = some 0.3 ∧
    (modA.combine modB).extra_hits = some [0.5] := by
  have h := effect_modifier_combine_spec modA modB
  exact ⟨h.2.2.2.2.2.2.2.1 0.3 rfl (by norm_num),
         h.2.2.2.2.2.2.2.2.2.2.2.2 (Or.inl rfl)⟩

/-- C7: with `slayer_helmet_i` equipped (granting both slayer-helm effects),
on task, against a non-undead target: before stacking the melee context
detects both effects, and under each of the three combat styles the resolved
output contains exactly one effect of the "slayer_undead" group, the imbued
one. -/
theorem slayer_scenario_exactly_imbued :
    get_active_effects (ctxSlayer CombatStyle.MELEE)
      = [slayerHelmActive, slayerImbuedActive] ∧
    ((resolve_stacking (get_active_effects (ctxSlayer CombatStyle.MELEE))).filter
      fun e => e.effect.stacking_group = some "slayer_undead") = [slayerImbuedActive] ∧
    ((resolve_stacking (get_active_effects (ctxSlayer CombatStyle.RANGED))).filter
      fun e => e.effect.stacking_group = some "slayer_undead") = [slayerImbuedActive] ∧
    ((resolve_stacking (get_active_effects (ctxSlayer CombatStyle.MAGIC))).filter
      fun e => e.effect.stacking_group = some "slayer_undead") = [slayerImbuedActive] := by
  decide

/-- C9 (counterexample): the `PassiveEffect` constructor performs no
validation: a value with `proc_chance = 1.5`, outside `[0, 1]`, is accepted at
construction and flows through to query time, where `resolve_modifiers`
classifies it as a guaranteed effect. -/
theorem proc_chance_constructor_accepts :
    badProcEffect.proc_chance = 1.5 ∧
    ¬ (badProcEffect.proc_chance ≤ 1) ∧
    (resolve_modifiers [badProcActive] ctxNeutral).active_effects = [badProcActive] := by
  decide

/-- C9 (amended): construction is unchecked; `proc_chance` only matters at
query time, where `resolve_modifiers` files any active effect with
`proc_chance >= 1.0` (even out-of-range values above 1) among the guaranteed
effects and any with `proc_chance < 1.0` (even negative values) among the
probabilistic ones. -/
theorem proc_chance_surfaces_at_query_time (a : ActiveEffect) (ctx : CombatContext) :
    (1 ≤ a.effective_proc_chance →
      (resolve_modifiers [a] ctx).active_effects = [a]) ∧
    (a.effective_proc_chance < 1 →
      (resolve_modifiers [a] ctx).proc_effects = [a]) := by
  constructor
  · intro h
    simp [resolve_modifiers, alwaysActive, resolve_stacking_singleton,
      List.filter, h]
  · intro h
    simp [resolve_modifiers, procOf, resolve_stacking_singleton,
      List.filter, h]

/-- C9 (witness): the out-of-range effect (`proc_chance = 1.5`) lands among
the guaranteed effects of a concrete resolution. -/
theorem proc_chance_surfaces_at_query_time_witness :
    (resolve_modifiers [badProcActive] ctxNeutral).active_effects = [badProcActive] := by
  exact (proc_chance_surfaces_at_query_time badProcActive ctxNeutral).1 (by decide)

/-- C10: `is_met` with `weapon_name = None` ignores the weapon-pattern list
entirely (the result equals that of the same condition with the list cleared),
while a `vs_attribute` condition evaluated with the attribute list of an
absent target fails closed. -/
theorem is_met_missing_weapon_vacuous (c : EffectCondition)
    (tattrs : Option (List String)) (ost iw : Bool) (hp : ℚ) (ts : ℤ)
    (atk : Option String) :
    (c.is_met tattrs ost iw hp ts atk none =
      EffectCondition.is_met { c with using_specific_weapon := none }
        tattrs ost iw hp ts atk none) ∧
    (∀ attr, c.vs_attribute = some attr →
      c.is_met (some (get_target_attributes none)) ost iw hp ts atk none = false) := by
  constructor
  · cases h : c.using_specific_weapon <;> simp [EffectCondition.is_met, h]
  · intro attr h
    simp [EffectCondition.is_met, h, get_target_attributes]

/-- C10 (witness): a condition requiring both an undead target and a weapon
pattern, evaluated with no target and no weapon name, fails closed on the
target conjunct. -/
theorem is_met_missing_weapon_vacuous_witness :
    condUndeadAndPatterns.is_met (some (get_target_attributes none))
      false false 1 1 none none = false := by
  exact (is_met_missing_weapon_vacuous condUndeadAndPatterns
    (some (get_target_attributes none)) false false 1 1 none).2 "undead" rfl

/-- When no weapon-effect pattern matches the normalised weapon name in either
direction, the weapon pass detects nothing. -/
theorem detect_weapon_effects_eq_nil (w : String) (ctx : CombatContext)
    (h : ∀ pe ∈ WEAPON_EFFECTS, pyStrIn pe.1 (weaponNorm w) = false ∧
      pyStrIn (weaponNorm w) pe.1 = false) :
    detect_weapon_effects w ctx = [] := by
  rw [detect_weapon_effects, List.filterMap_eq_nil_iff]
  intro pe hpe
  simp [(h pe hpe).1, (h pe hpe).2]

/-- With nothing equipped, the item pass detects nothing (every effect fails
the `has_item` check). -/
theorem detect_item_effects_eq_nil (ctx : CombatContext) :
    detect_item_effects [] ctx = [] := rfl

/-- With nothing equipped, no set bonus is active. -/
theorem detect_set_bonuses_eq_nil (ctx : CombatContext) :
    detect_set_bonuses [] ctx = [] := rfl

/-- Resolving an empty effect list yields the identity `ResolvedModifiers`. -/
theorem resolve_modifiers_eq_default (ctx : CombatContext) :
    resolve_modifiers [] ctx = ({} : ResolvedModifiers) := rfl

/-- C8: with an empty equipped-item list, no target, and a weapon name that
matches no weapon-effect pattern, the engine returns the identity
`ResolvedModifiers` (both multipliers 1, no flags, no optional fields, both
effect lists empty) without any failure. -/
theorem no_context_baseline (ctx : CombatContext)
    (heq : ctx.equipped_items = [])
    (_htgt : ctx.target = none)
    (hw : ∀ pe ∈ WEAPON_EFFECTS, pyStrIn pe.1 (weaponNorm ctx.weapon_name) = false ∧
      pyStrIn (weaponNorm ctx.weapon_name) pe.1 = false) :
    EffectEngine.get_modifiers ctx = ({} : ResolvedModifiers) := by
  have h1 := detect_weapon_effects_eq_nil ctx.weapon_name ctx hw
  rw [EffectEngine.get_modifiers, get_active_effects, h1, heq,
    detect_item_effects_eq_nil, detect_set_bonuses_eq_nil]
  rfl

/-- C8 (witness): the baseline evaluated on a concrete bare context. -/
theorem no_context_baseline_witness :
    EffectEngine.get_modifiers ctxNoGear = ({} : ResolvedModifiers) := by
  exact no_context_baseline ctxNoGear rfl rfl (by decide)

/-- Under `max 1 _`, Python's `int()` truncation agrees with the floor: for a
non-negative argument the two coincide, and for a negative argument both are
at most zero, so the `max` returns 1 either way. -/
theorem max_one_pyInt_eq_floor (q : ℚ) : max 1 (pyInt q) = max 1 ⌊q⌋ := by
  unfold pyInt
  split
  · rfl
  · rename_i hq
    have hq' : q < 0 := lt_of_not_ge hq
    have h1 : ⌊q⌋ ≤ 1 := (Int.floor_nonpos hq'.le).trans (by norm_num)
    have h2 : -⌊-q⌋ ≤ 1 := by
      have : (0 : ℤ) ≤ ⌊-q⌋ := Int.le_floor.2 (by simpa using hq'.le)
      omega
    rw [max_eq_left h2, max_eq_left h1]

/-- `calculate_dharok_multiplier` in the claim's floor formulation. -/
theorem calculate_dharok_multiplier_eq_floor (hp : ℚ) (mh : ℤ) :
    calculate_dharok_multiplier hp mh
      = 1 + (((mh : ℚ) - ((max 1 ⌊hp * (mh : ℚ)⌋ : ℤ) : ℚ)) / (mh : ℚ)) := by
  unfold calculate_dharok_multiplier
  rw [max_one_pyInt_eq_floor]
  push_cast
  ring

/-- C6: when the combined guaranteed modifier carries the missing-HP flag,
`resolve_modifiers` multiplies its `damage_mult` by
`1 + (max_hp - max(1, floor(hp_percent * max_hp))) / max_hp`, clears the flag,
and leaves every other field of the combined modifier unchanged; the live
factor is `1 + 98/99` at `hp_percent = 1/99, max_hp = 99` and exactly 1 at
`hp_percent = 1`. -/
theorem dharok_missing_hp_consumed :
    (∀ (effects : List ActiveEffect) (ctx : CombatContext),
      (resolveCombinedPre effects).scales_with_missing_hp = true →
      (resolve_modifiers effects ctx).damage_mult
          = (resolveCombinedPre effects).damage_mult *
            (1 + (((ctx.player_max_hp : ℚ) -
              ((max 1 ⌊ctx.player_hp_percent * (ctx.player_max_hp : ℚ)⌋ : ℤ) : ℚ)) /
              (ctx.player_max_hp : ℚ))) ∧
      (resolve_modifiers effects ctx).scales_with_missing_hp = false ∧
      (resolve_modifiers effects ctx).accuracy_mult
          = (resolveCombinedPre effects).accuracy_mult ∧
      (resolve_modifiers effects ctx).double_accuracy_roll
          = (resolveCombinedPre effects).double_accuracy_roll ∧
      (resolve_modifiers effects ctx).min_hit_percent
          = (resolveCombinedPre effects).min_hit_percent ∧
      (resolve_modifiers effects ctx).max_hit_percent
          = (resolveCombinedPre effects).max_hit_percent ∧
      (resolve_modifiers effects ctx).extra_hits
          = (resolveCombinedPre effects).extra_hits ∧
      (resolve_modifiers effects ctx).scales_with_target_magic
          = (resolveCombinedPre effects).scales_with_target_magic ∧
      (resolve_modifiers effects ctx).ignores_defence
          = (resolveCombinedPre effects).ignores_defence ∧
      (resolve_modifiers effects ctx).ignores_prayer
          = (resolveCombinedPre effects).ignores_prayer) ∧
    calculate_dharok_multiplier (1/99) 99 = 1 + 98/99 ∧
    calculate_dharok_multiplier 1 99 = 1 := by
  refine ⟨?_, by decide, by decide⟩
  intro effects ctx h
  rw [← calculate_dharok_multiplier_eq_floor]
  simp [resolve_modifiers, h]

/-- C6 (witness): a single guaranteed Dharok effect at 1/99 HP of 99 —
the combined modifier carries the flag and the resolution clears it, the
damage multiplier picking up the live factor. -/
theorem dharok_missing_hp_consumed_witness :
    (resolveCombinedPre [dharokActive]).scales_with_missing_hp = true ∧
    (resolve_modifiers [dharokActive] ctxDharokLow).scales_with_missing_hp = false ∧
    (resolve_modifiers [dharokActive] ctxDharokLow).damage_mult
        = (resolveCombinedPre [dharokActive]).damage_mult *
          (1 + (((ctxDharokLow.player_max_hp : ℚ) -
            ((max 1 ⌊ctxDharokLow.player_hp_percent *
              (ctxDharokLow.player_max_hp : ℚ)⌋ : ℤ) : ℚ)) /
            (ctxDharokLow.player_max_hp : ℚ))) := by
  have h := dharok_missing_hp_consumed.1 [dharokActive] ctxDharokLow (by decide)
  exact ⟨by decide, h.2.1, h.1⟩

/-- Unfolding `pickFirstMax` one step. -/
theorem pickFirstMax_cons (f c : ActiveEffect) (r : List ActiveEffect) :
    pickFirstMax f (c :: r)
      = pickFirstMax (if f.stacking_priority < c.stacking_priority then c else f) r := rfl

/-- The stacking winner is one of the group's members. -/
theorem pickFirstMax_mem (f : ActiveEffect) (rest : List ActiveEffect) :
    pickFirstMax f rest ∈ f :: rest := by
  induction rest generalizing f with
  | nil => simp [pickFirstMax]
  | cons c r ih =>
    rw [pickFirstMax_cons]
    by_cases hc : f.stacking_priority < c.stacking_priority
    · rw [if_pos hc]
      rcases List.mem_cons.1 (ih c) with h | h
      · simp [h]
      · simp [List.mem_cons_of_mem, h]
    · rw [if_neg hc]
      rcases List.mem_cons.1 (ih f) with h | h
      · simp [h]
      · simp [List.mem_cons_of_mem, h]

/-- The starting element's priority never exceeds the winner's. -/
theorem pickFirstMax_init_le (f : ActiveEffect) (rest : List ActiveEffect) :
    f.stacking_priority ≤ (pickFirstMax f rest).stacking_priority := by
  induction rest generalizing f with
  | nil => exact le_refl _
  | cons c r ih =>
    rw [pickFirstMax_cons]
    by_cases hc : f.stacking_priority < c.stacking_priority
    · rw [if_pos hc]
      exact (le_of_lt hc).trans (ih c)
    · rw [if_neg hc]
      exact ih f

/-- No member of the group outranks the winner. -/
theorem pickFirstMax_le (f : ActiveEffect) (rest : List ActiveEffect) :
    ∀ e ∈ rest, e.stacking_priority ≤ (pickFirstMax f rest).stacking_priority := by
  induction rest generalizing f with
  | nil => simp
  | cons c r ih =>
    intro e he
    rw [pickFirstMax_cons]
    rcases List.mem_cons.1 he with rfl | hr
    · by_cases hc : f.stacking_priority < e.stacking_priority
      · rw [if_pos hc]
        exact pickFirstMax_init_le e r
      · rw [if_neg hc]
        exact (not_lt.1 hc).trans (pickFirstMax_init_le f r)
    · exact ih _ e hr

/-- Characterisation of a truthy stacking key. -/
theorem stackKey_eq_some (e : ActiveEffect) (g : String) :
    stackKey e = some g ↔ e.effect.stacking_group = some g ∧ g ≠ "" := by
  unfold stackKey
  cases h : e.effect.stacking_group with
  | none => simp
  | some s =>
    by_cases hs : s = ""
    · subst hs
      change (if ("" : String) = "" then none else some ("" : String)) = some g ↔ _
      rw [if_pos rfl]
      constructor
      · intro h'; cases h'
      · rintro ⟨h', hne⟩
        injection h' with h''
        exact absurd h''.symm hne
    · change (if s = "" then none else some s) = some g ↔ _
      rw [if_neg hs]
      constructor
      · intro h'
        injection h' with h''
        subst h''
        exact ⟨rfl, hs⟩
      · rintro ⟨h', _⟩
        injection h' with h''
        rw [h'']

/-- Characterisation of a falsy stacking key (`None` or the empty string). -/
theorem stackKey_eq_none (e : ActiveEffect) :
    stackKey e = none ↔
      e.effect.stacking_group = none ∨ e.effect.stacking_group = some "" := by
  unfold stackKey
  cases h : e.effect.stacking_group with
  | none => simp
  | some s =>
    by_cases hs : s = ""
    · subst hs
      change (if ("" : String) = "" then none else some ("" : String)) = none ↔ _
      rw [if_pos rfl]
      simp
    · change (if s = "" then none else some s) = none ↔ _
      rw [if_neg hs]
      simp [hs]

/-- Membership in the accumulated key list of the grouping fold. -/
theorem keys_foldl_mem (key : ActiveEffect → Option String)
    (l : List ActiveEffect) (acc : List String) (g : String) :
    (g ∈ l.foldl (fun acc e =>
        match key e with
        | some g => if g ∈ acc then acc else acc ++ [g]
        | none => acc) acc)
      ↔ g ∈ acc ∨ ∃ e ∈ l, key e = some g := by
  induction l generalizing acc with
  | nil => simp
  | cons e l ih =>
    rw [List.foldl_cons, ih]
    cases hk : key e with
    | none =>
      simp only [hk]
      constructor
      · rintro (h | ⟨x, hx, hkx⟩)
        · exact Or.inl h
        · exact Or.inr ⟨x, List.mem_cons_of_mem e hx, hkx⟩
      · rintro (h | ⟨x, hx, hkx⟩)
        · exact Or.inl h
        · rcases List.mem_cons.1 hx with rfl | hx'
          · rw [hk] at hkx; cases hkx
          · exact Or.inr ⟨x, hx', hkx⟩
    | some g' =>
      by_cases hg : g' ∈ acc
      · simp only [hk, if_pos hg]
        constructor
        · rintro (h | ⟨x, hx, hkx⟩)
          · exact Or.inl h
          · exact Or.inr ⟨x, List.mem_cons_of_mem e hx, hkx⟩
        · rintro (h | ⟨x, hx, hkx⟩)
          · exact Or.inl h
          · rcases List.mem_cons.1 hx with rfl | hx'
            · rw [hk] at hkx
              injection hkx with hkx'
              exact Or.inl (hkx' ▸ hg)
            · exact Or.inr ⟨x, hx', hkx⟩
      · simp only [hk, if_neg hg]
        constructor
        · rintro (h | ⟨x, hx, hkx⟩)
          · rcases List.mem_append.1 h with h' | h'
            · exact Or.inl h'
            · have hgg : g = g' := by simpa using h'
              exact Or.inr ⟨e, List.mem_cons_self e l, by rw [hk, hgg]⟩
          · exact Or.inr ⟨x, List.mem_cons_of_mem e hx, hkx⟩
        · rintro (h | ⟨x, hx, hkx⟩)
          · exact Or.inl (List.mem_append.2 (Or.inl h))
          · rcases List.mem_cons.1 hx with rfl | hx'
            · rw [hk] at hkx
              injection hkx with hkx'
              exact Or.inl (List.mem_append.2 (Or.inr (by simp [hkx'])))
            · exact Or.inr ⟨x, hx', hkx⟩

/-- The grouping fold preserves freedom from duplicates. -/
theorem keys_foldl_nodup (key : ActiveEffect → Option String)
    (l : List ActiveEffect) (acc : List String) (h : acc.Nodup) :
    (l.foldl (fun acc e =>
        match key e with
        | some g => if g ∈ acc then acc else acc ++ [g]
        | none => acc) acc).Nodup := by
  induction l generalizing acc with
  | nil => exact h
  | cons e l ih =>
    rw [List.foldl_cons]
    apply ih
    cases hk : key e with
    | none => simpa [hk] using h
    | some g' =>
      by_cases hg : g' ∈ acc
      · simpa [hk, hg] using h
      · simp only [hk, if_neg hg]
        exact List.Nodup.append h (List.nodup_singleton g')
          (by simpa [List.disjoint_singleton] using hg)

/-- A key appears in `keysInOrder` exactly when some effect carries it. -/
theorem keysInOrder_mem (key : ActiveEffect → Option String)
    (l : List ActiveEffect) (g : String) :
    g ∈ keysInOrder key l ↔ ∃ e ∈ l, key e = some g := by
  unfold keysInOrder
  rw [keys_foldl_mem]
  simp

/-- `keysInOrder` never repeats a key. -/
theorem keysInOrder_nodup (key : ActiveEffect → Option String)
    (l : List ActiveEffect) : (keysInOrder key l).Nodup := by
  unfold keysInOrder
  exact keys_foldl_nodup key l [] List.nodup_nil

/-- What a defined group winner is: a member of the input carrying the group,
outranked by no member of the group. -/
theorem groupWinner_spec (effects : List ActiveEffect) (k : String)
    (w : ActiveEffect) (h : groupWinner effects k = some w) :
    w ∈ effects ∧ w.effect.stacking_group = some k ∧ k ≠ "" ∧
    ∀ e ∈ effects, stackKey e = some k →
      e.stacking_priority ≤ w.stacking_priority := by
  unfold groupWinner at h
  cases hf : effects.filter (fun e => stackKey e = some k) with
  | nil => rw [hf] at h; cases h
  | cons f rest =>
    rw [hf] at h
    injection h with h
    subst h
    have hmem : pickFirstMax f rest ∈ effects.filter (fun e => stackKey e = some k) := by
      rw [hf]; exact pickFirstMax_mem f rest
    have hmem' := List.mem_filter.1 hmem
    have hkey : stackKey (pickFirstMax f rest) = some k := by
      simpa using hmem'.2
    obtain ⟨hgrp, hne⟩ := (stackKey_eq_some _ _).1 hkey
    refine ⟨hmem'.1, hgrp, hne, ?_⟩
    intro e he hek
    have : e ∈ effects.filter (fun e => stackKey e = some k) :=
      List.mem_filter.2 ⟨he, by simp [hek]⟩
    rw [hf] at this
    rcases List.mem_cons.1 this with rfl | hr
    · exact pickFirstMax_init_le e rest
    · exact pickFirstMax_le f rest e hr

/-- When a key is absent from a key list, the winners produced from that list
contain no effect of that group. -/
theorem winners_filter_not_mem (effects : List ActiveEffect) (ks : List String)
    (g : String) (hg : g ∉ ks) :
    (ks.filterMap (groupWinner effects)).filter
      (fun e => e.effect.stacking_group = some g) = [] := by
  induction ks with
  | nil => rfl
  | cons k ks ih =>
    have hgk : g ≠ k := fun h => hg (h ▸ List.mem_cons_self k ks)
    have hgks : g ∉ ks := fun h => hg (List.mem_cons_of_mem k h)
    cases hw : groupWinner effects k with
    | none =>
      rw [List.filterMap_cons_none hw]
      exact ih hgks
    | some w =>
      rw [List.filterMap_cons_some hw]
      have hwg := (groupWinner_spec effects k w hw).2.1
      have hne : ¬ (decide (w.effect.stacking_group = some g) = true) := by
        simp only [decide_eq_true_eq, hwg]
        intro h'
        injection h' with h''
        exact hgk h''.symm
      rw [@List.filter_cons_of_neg _ _ w _ hne]
      exact ih hgks

/-- When a key occurs (once) in a duplicate-free key list and its winner is
defined, the winners filtered to that group are exactly that winner. -/
theorem winners_filter_mem (effects : List ActiveEffect) (ks : List String)
    (g : String) (w : ActiveEffect) (hnd : ks.Nodup) (hg : g ∈ ks)
    (hw : groupWinner effects g = some w) :
    (ks.filterMap (groupWinner effects)).filter
      (fun e => e.effect.stacking_group = some g) = [w] := by
  induction ks with
  | nil => cases hg
  | cons k ks ih =>
    rcases List.mem_cons.1 hg with rfl | hgk
    · rw [List.filterMap_cons_some hw]
      have hwg := (groupWinner_spec effects g w hw).2.1
      have hpos : decide (w.effect.stacking_group = some g) = true := by
        simp [hwg]
      rw [@List.filter_cons_of_pos _ _ w _ hpos,
        winners_filter_not_mem effects ks g (List.nodup_cons.1 hnd).1]
    · have hgne : g ≠ k := by
        rintro rfl
        exact (List.nodup_cons.1 hnd).1 hgk
      cases hwk : groupWinner effects k with
      | none =>
        rw [List.filterMap_cons_none hwk]
        exact ih (List.nodup_cons.1 hnd).2 hgk
      | some w' =>
        rw [List.filterMap_cons_some hwk]
        have hwg' := (groupWinner_spec effects k w' hwk).2.1
        have hne : ¬ (decide (w'.effect.stacking_group = some g) = true) := by
          simp only [decide_eq_true_eq, hwg']
          intro h'
          injection h' with h''
          exact hgne h''.symm
        rw [@List.filter_cons_of_neg _ _ w' _ hne]
        exact ih (List.nodup_cons.1 hnd).2 hgk

/-- C1 (amended): `resolve_stacking` maps the empty list to the empty list,
passes through every effect whose `stacking_group` is `None` *or the empty
string* (the source's truthiness test), and for each non-empty stacking group
with at least one member returns exactly one member of that group, one of
maximal priority among the group's members. -/
theorem resolve_stacking_spec :
    resolve_stacking [] = [] ∧
    ∀ effects : List ActiveEffect,
      (∀ e ∈ effects,
        (e.effect.stacking_group = none ∨ e.effect.stacking_group = some "") →
        e ∈ resolve_stacking effects) ∧
      (∀ g : String, g ≠ "" →
        (∃ e ∈ effects, e.effect.stacking_group = some g) →
        ∃ m, ((resolve_stacking effects).filter
            fun e => e.effect.stacking_group = some g) = [m] ∧
          m ∈ effects ∧ m.effect.stacking_group = some g ∧
          ∀ e ∈ effects, e.effect.stacking_group = some g →
            e.stacking_priority ≤ m.stacking_priority) := by
  refine ⟨rfl, fun effects => ⟨?_, ?_⟩⟩
  · intro e he hgrp
    have : stackKey e = none := (stackKey_eq_none e).2 hgrp
    exact List.mem_append_left _ (List.mem_filter.2 ⟨he, by simp [this]⟩)
  · intro g hgne ⟨e0, he0, hg0⟩
    have hk0 : stackKey e0 = some g := (stackKey_eq_some e0 g).2 ⟨hg0, hgne⟩
    have hkeys : g ∈ keysInOrder stackKey effects :=
      (keysInOrder_mem stackKey effects g).2 ⟨e0, he0, hk0⟩
    have hfil : e0 ∈ effects.filter (fun e => stackKey e = some g) :=
      List.mem_filter.2 ⟨he0, by simp [hk0]⟩
    obtain ⟨w, hw⟩ : ∃ w, groupWinner effects g = some w := by
      unfold groupWinner
      cases hf : effects.filter (fun e => stackKey e = some g) with
      | nil => rw [hf] at hfil; cases hfil
      | cons f rest => exact ⟨pickFirstMax f rest, rfl⟩
    obtain ⟨hwmem, hwgrp, _, hwmax⟩ := groupWinner_spec effects g w hw
    refine ⟨w, ?_, hwmem, hwgrp, ?_⟩
    · rw [resolve_stacking]
      rw [List.filter_append]
      have hng : (effects.filter fun e => stackKey e = none).filter
          (fun e => e.effect.stacking_group = some g) = [] := by
        rw [List.filter_eq_nil_iff]
        intro a ha
        have hka : stackKey a = none := by
          simpa using (List.mem_filter.1 ha).2
        rcases (stackKey_eq_none a).1 hka with h | h <;> simp [h]
        rintro rfl
        exact hgne rfl
      rw [hng, List.nil_append]
      exact winners_filter_mem effects (keysInOrder stackKey effects) g w
        (keysInOrder_nodup stackKey effects) hkeys hw
    · intro e he hge
      exact hwmax e he ((stackKey_eq_some e g).2 ⟨hge, hgne⟩)

/-- C1 (witness): among two effects sharing the non-empty group "g" with
priorities 1 and 5, the resolved output holds exactly one member of the group,
of maximal priority. -/
theorem resolve_stacking_spec_witness :
    ∃ m, ((resolve_stacking [stackGA, stackGB]).filter
        fun e => e.effect.stacking_group = some "g") = [m] ∧
      m ∈ [stackGA, stackGB] ∧ m.effect.stacking_group = some "g" ∧
      ∀ e ∈ [stackGA, stackGB], e.effect.stacking_group = some "g" →
        e.stacking_priority ≤ m.stacking_priority := by
  exact (resolve_stacking_spec.2 [stackGA, stackGB]).2 "g" (by decide)
    ⟨stackGA, by decide, by decide⟩

/-- C1 (counterexample): two distinct effects share the stacking group `""`
(a `some` value, not `None`), yet `resolve_stacking` returns both — the
source's truthiness test treats the empty string like `None`, so the claim's
"exactly one member per group" fails for the empty-string group. -/
theorem resolve_stacking_empty_group_refuted :
    stackEmptyA.effect.stacking_group = some "" ∧
    stackEmptyB.effect.stacking_group = some "" ∧
    stackEmptyA ≠ stackEmptyB ∧
    resolve_stacking [stackEmptyA, stackEmptyB] = [stackEmptyA, stackEmptyB] ∧
    ¬ ∃ m, ((resolve_stacking [stackEmptyA, stackEmptyB]).filter
        fun e => e.effect.stacking_group = some "") = [m] := by
  refine ⟨by decide, by decide, by decide, by decide, ?_⟩
  rintro ⟨m, hm⟩
  have h2 : ((resolve_stacking [stackEmptyA, stackEmptyB]).filter
      fun e => e.effect.stacking_group = some "") = [stackEmptyA, stackEmptyB] := by
    decide
  rw [h2] at hm
  simp at hm

/-- Folding `combine` multiplies the accuracy multipliers. -/
theorem foldl_combine_accuracy {α : Type} (l : List α) (f : α → EffectModifier)
    (c : EffectModifier) :
    (l.foldl (fun c x => c.combine (f x)) c).accuracy_mult
      = c.accuracy_mult * (l.map fun x => (f x).accuracy_mult).prod := by
  induction l generalizing c with
  | nil => simp
  | cons x l ih =>
    rw [List.foldl_cons, ih]
    simp [EffectModifier.combine]
    ring

/-- Folding `combine` multiplies the damage multipliers. -/
theorem foldl_combine_damage {α : Type} (l : List α) (f : α → EffectModifier)
    (c : EffectModifier) :
    (l.foldl (fun c x => c.combine (f x)) c).damage_mult
      = c.damage_mult * (l.map fun x => (f x).damage_mult).prod := by
  induction l generalizing c with
  | nil => simp
  | cons x l ih =>
    rw [List.foldl_cons, ih]
    simp [EffectModifier.combine]
    ring

/-- Closed form of the combined accuracy multiplier: the product over the
guaranteed effects without an additive group, times, per additive group,
`1 + sum(accuracy_mult - 1)` over the group's members. -/
theorem resolveCombinedPre_accuracy (effects : List ActiveEffect) :
    (resolveCombinedPre effects).accuracy_mult =
      (((alwaysActive effects).filter fun e => addKey e = none).map
        (fun e => e.effect.modifier.accuracy_mult)).prod *
      ((keysInOrder addKey (alwaysActive effects)).map fun g =>
        1 + (((alwaysActive effects).filter fun e => addKey e = some g).map
          (fun e => e.effect.modifier.accuracy_mult - 1)).sum).prod := by
  unfold resolveCombinedPre
  rw [foldl_combine_accuracy, foldl_combine_accuracy]
  simp only [groupModifier]
  norm_num

/-- Closed form of the combined damage multiplier (before the Dharok step). -/
theorem resolveCombinedPre_damage (effects : List ActiveEffect) :
    (resolveCombinedPre effects).damage_mult =
      (((alwaysActive effects).filter fun e => addKey e = none).map
        (fun e => e.effect.modifier.damage_mult)).prod *
      ((keysInOrder addKey (alwaysActive effects)).map fun g =>
        1 + (((alwaysActive effects).filter fun e => addKey e = some g).map
          (fun e => e.effect.modifier.damage_mult - 1)).sum).prod := by
  unfold resolveCombinedPre
  rw [foldl_combine_damage, foldl_combine_damage]
  simp only [groupModifier]
  norm_num

/-- The Dharok special case never touches the accuracy multiplier. -/
theorem resolve_modifiers_accuracy (effects : List ActiveEffect)
    (ctx : CombatContext) :
    (resolve_modifiers effects ctx).accuracy_mult
      = (resolveCombinedPre effects).accuracy_mult := by
  by_cases h : (resolveCombinedPre effects).scales_with_missing_hp <;>
    simp [resolve_modifiers, h]

/-- C2 (amended): guaranteed effects in the same *non-empty* additive group
combine by summing their bonuses — each such group contributes a factor
`1 + sum(mult - 1)` per axis, multiplied with the individual multipliers of
every guaranteed effect outside any (truthy) additive group; three effects
with accuracy multipliers 1.05/1.10/1.15 in one group resolve to exactly 1.30,
not to the pairwise product. -/
theorem additive_group_sums_bonuses :
    (∀ (effects : List ActiveEffect) (ctx : CombatContext),
      (resolve_modifiers effects ctx).accuracy_mult =
        (((alwaysActive effects).filter fun e => addKey e = none).map
          (fun e => e.effect.modifier.accuracy_mult)).prod *
        ((keysInOrder addKey (alwaysActive effects)).map fun g =>
          1 + (((alwaysActive effects).filter fun e => addKey e = some g).map
            (fun e => e.effect.modifier.accuracy_mult - 1)).sum).prod ∧
      (resolveCombinedPre effects).damage_mult =
        (((alwaysActive effects).filter fun e => addKey e = none).map
          (fun e => e.effect.modifier.damage_mult)).prod *
        ((keysInOrder addKey (alwaysActive effects)).map fun g =>
          1 + (((alwaysActive effects).filter fun e => addKey e = some g).map
            (fun e => e.effect.modifier.damage_mult - 1)).sum).prod) ∧
    (resolve_modifiers [addEff105, addEff110, addEff115] ctxNeutral).accuracy_mult
      = 1.30 ∧
    (resolve_modifiers [addEff105, addEff110, addEff115] ctxNeutral).accuracy_mult
      ≠ 1.05 * 1.10 * 1.15 := by
  refine ⟨fun effects ctx => ⟨?_, resolveCombinedPre_damage effects⟩, by decide, by decide⟩
  rw [resolve_modifiers_accuracy, resolveCombinedPre_accuracy]

/-- C2 (counterexample): two guaranteed effects sharing the additive group
`""` (a `some` value) are *not* summed: the source's truthiness test treats
the empty string like `None`, so they multiply pairwise (2.25), not
`1 + (0.5 + 0.5) = 2`. -/
theorem additive_empty_group_refuted :
    addEmptyA.effect.additive_group = some "" ∧
    addEmptyB.effect.additive_group = some "" ∧
    (resolve_modifiers [addEmptyA, addEmptyB] ctxNeutral).accuracy_mult = 1.5 * 1.5 ∧
    (resolve_modifiers [addEmptyA, addEmptyB] ctxNeutral).accuracy_mult
      ≠ 1 + ((1.5 - 1) + (1.5 - 1)) := by
  decide

/-- Every effect the item pass emits passed the three skip filters: its
catalog key (equal to its id) is neither a weapon-effect id nor a set-bonus
effect id, and its source type is not `SET`. -/
theorem detect_item_effects_excludes (equipped : List String)
    (ctx : CombatContext) (a : ActiveEffect)
    (h : a ∈ detect_item_effects equipped ctx) :
    a.effect.id ∉ weapon_effect_ids ∧ a.effect.id ∉ set_effect_ids ∧
    a.effect.source_type ≠ SourceType.SET := by
  have hkey : ∀ kv ∈ ALL_EFFECTS, kv.1 = kv.2.id := by decide
  rw [detect_item_effects] at h
  obtain ⟨entry, hmem, hf⟩ := List.mem_filterMap.1 h
  by_cases h1 : weapon_effect_ids.contains entry.1
  · rw [if_pos (by simpa using h1)] at hf; cases hf
  · rw [if_neg (by simpa using h1)] at hf
    by_cases h2 : set_effect_ids.contains entry.1
    · rw [if_pos (by simpa using h2)] at hf; cases hf
    · rw [if_neg (by simpa using h2)] at hf
      by_cases h3 : entry.2.source_type = SourceType.SET
      · rw [if_pos (by simpa using h3)] at hf; cases hf
      · rw [if_neg (by simpa using h3)] at hf
        have heff : a.effect = entry.2 := by
          by_cases h4 : (equipped.any fun item => entry.2.is_from_item item)
          · rw [if_neg (by simp [h4])] at hf
            by_cases h5 : entry.2.applies_to_style ctx.combat_style
            · rw [if_neg (by simp [h5])] at hf
              by_cases h6 : entry.2.condition.is_met
                  (some (get_target_attributes ctx.target)) ctx.on_slayer_task
                  ctx.in_wilderness ctx.player_hp_percent (contextTargetSize ctx)
                  (some ctx.attack_type) (some ctx.weapon_name)
              · rw [if_pos (by simpa using h6)] at hf
                injection hf with hf'
                rw [← hf']
              · rw [if_neg (by simpa using h6)] at hf; cases hf
            · rw [if_pos (by simp [h5])] at hf; cases hf
          · rw [if_pos (by simp [h4])] at hf; cases hf
        have hid : a.effect.id = entry.1 := by
          rw [heff, ← hkey entry hmem]
        rw [hid]
        refine ⟨by simpa using h1, by simpa using h2, ?_⟩
        rw [heff]
        exact h3

/-- Every effect the weapon pass emits has a weapon-effect id. -/
theorem detect_weapon_effects_ids (w : String) (ctx : CombatContext)
    (a : ActiveEffect) (h : a ∈ detect_weapon_effects w ctx) :
    a.effect.id ∈ weapon_effect_ids := by
  rw [detect_weapon_effects] at h
  obtain ⟨pe, hmem, hf⟩ := List.mem_filterMap.1 h
  have heff : a.effect = pe.2 := by
    by_cases h1 : (pyStrIn pe.1 (weaponNorm w) || pyStrIn (weaponNorm w) pe.1)
    · rw [if_pos (by simpa using h1)] at hf
      by_cases h2 : pe.2.applies_to_style ctx.combat_style
      · rw [if_pos (by simpa using h2)] at hf
        by_cases h3 : pe.2.condition.is_met
            (some (get_target_attributes ctx.target)) ctx.on_slayer_task
            ctx.in_wilderness ctx.player_hp_percent (contextTargetSize ctx)
            (some ctx.attack_type) (some w)
        · rw [if_pos (by simpa using h3)] at hf
          injection hf with hf'
          rw [← hf']
        · rw [if_neg (by simpa using h3)] at hf; cases hf
      · rw [if_neg (by simpa using h2)] at hf; cases hf
    · rw [if_neg (by simpa using h1)] at hf; cases hf
  rw [heff]
  exact List.mem_map.2 ⟨pe, hmem, rfl⟩

/-- Every effect the set pass emits has a set-bonus effect id. -/
theorem detect_set_bonuses_ids (equipped : List String) (ctx : CombatContext)
    (a : ActiveEffect) (h : a ∈ detect_set_bonuses equipped ctx) :
    a.effect.id ∈ set_effect_ids := by
  rw [detect_set_bonuses] at h
  obtain ⟨entry, hmem, hf⟩ := List.mem_filterMap.1 h
  have heff : a.effect = entry.2.effect := by
    by_cases h1 : entry.2.is_active equipped
    · rw [if_neg (by simp [h1])] at hf
      by_cases h2 : entry.2.effect.applies_to_style ctx.combat_style
      · rw [if_neg (by simp [h2])] at hf
        by_cases h3 : entry.2.effect.condition.is_met
            (some (get_target_attributes ctx.target)) ctx.on_slayer_task
            ctx.in_wilderness ctx.player_hp_percent (contextTargetSize ctx)
            (some ctx.attack_type) (some ctx.weapon_name)
        · rw [if_pos (by simpa using h3)] at hf
          injection hf with hf'
          rw [← hf']
        · rw [if_neg (by simpa using h3)] at hf; cases hf
      · rw [if_pos (by simp [h2])] at hf; cases hf
    · rw [if_pos (by simp [h1])] at hf; cases hf
  rw [heff]
  exact List.mem_map.2 ⟨entry, hmem, rfl⟩

/-- C3: for every combat context, no effect id is emitted by two different
detection passes: the item pass excludes weapon-effect ids, set-bonus effect
ids and `SET`-typed effects, and the weapon and set passes draw from disjoint
id sets. -/
theorem no_double_detection (ctx : CombatContext) :
    (∀ a ∈ detect_item_effects ctx.equipped_items ctx,
      a.effect.id ∉ weapon_effect_ids ∧ a.effect.id ∉ set_effect_ids ∧
      a.effect.source_type ≠ SourceType.SET) ∧
    (∀ a ∈ detect_weapon_effects ctx.weapon_name ctx,
      ∀ b ∈ detect_item_effects ctx.equipped_items ctx,
        a.effect.id ≠ b.effect.id) ∧
    (∀ a ∈ detect_set_bonuses ctx.equipped_items ctx,
      ∀ b ∈ detect_item_effects ctx.equipped_items ctx,
        a.effect.id ≠ b.effect.id) ∧
    (∀ a ∈ detect_weapon_effects ctx.weapon_name ctx,
      ∀ b ∈ detect_set_bonuses ctx.equipped_items ctx,
        a.effect.id ≠ b.effect.id) := by
  have hdisj : ∀ i ∈ weapon_effect_ids, i ∉ set_effect_ids := by decide
  refine ⟨fun a ha => detect_item_effects_excludes _ _ a ha, ?_, ?_, ?_⟩
  · intro a ha b hb heq
    exact (detect_item_effects_excludes _ _ b hb).1
      (heq ▸ detect_weapon_effects_ids _ _ a ha)
  · intro a ha b hb heq
    exact (detect_item_effects_excludes _ _ b hb).2.1
      (heq ▸ detect_set_bonuses_ids _ _ a ha)
  · intro a ha b hb heq
    exact hdisj _ (detect_weapon_effects_ids _ _ a ha)
      (heq ▸ detect_set_bonuses_ids _ _ b hb)

/-- C3 (witness): in the slayer-helm scenario, the imbued effect (emitted by
the item pass) has an id outside both the weapon and the set registries and is
not `SET`-typed. -/
theorem no_double_detection_witness :
    slayerImbuedActive.effect.id ∉ weapon_effect_ids ∧
    slayerImbuedActive.effect.id ∉ set_effect_ids ∧
    slayerImbuedActive.effect.source_type ≠ SourceType.SET := by
  exact (no_double_detection (ctxSlayer CombatStyle.MELEE)).1
    slayerImbuedActive (by decide)

end Proofs

end OsrsSim
